import Mathlib

/-!
# MLU trace capture: translation of CNPAPI activity records

A shallow embedding of `backends/mlu/runtime/process_cnpapi_data.cc`.

* `uint64_t` values are natural numbers; every `uint64_t` addition of the source is
  written with an explicit `% UINT64_MOD`.
* The collector (`C_Profiler`) is an external sink.  It is represented by the log of the
  events submitted to it so far; `profiler_add_device_trace_event` and
  `profiler_add_runtime_trace_event` append to that log, and every `Add*Record`
  function returns the collector it leaves behind.
* The function-local `static uint64_t time_gap = GetTimeGap();` is the same value in
  every `Add*Record` function (all of them read the one cached `GetTimeGap()`); it is
  passed as the argument `time_gap`.
* Constants and enumerator values that live in headers outside this file
  (`phi::kMemKindMaxLen`, the numeric values `CNPAPI_CNDRV_TRACE_CBID_*`) are
  arguments (`kMemKindMaxLen`, `cbidValue`).
* The record and event structs are declared in headers outside this file, so the widths
  of their fields are not known here.  A plain assignment `event.f = record->g` is the
  copy of the value.
* `GetTimeGap` takes the state of its function-local static and the two clock readings
  and returns the new state with the value.
* The allocator is parameterised by the data model (`sizeof(void *)` and the width of
  `size_t`), by the `#if` branch that is compiled, and by what the system allocators
  return; `size_t` sums carry an explicit `% SIZE_MOD`.  A failing `assert` is the result
  `none`.
* The buffer pool is the sequential state of the vector `activity_buffers_`.
-/

namespace Cnpapi

/-! ## Data model -/

/-- Modulus of `uint64_t` arithmetic. -/
def UINT64_MOD : Nat := 2 ^ 64

/-- Modelled from the spec: the enumeration `cnpapiActivityType` is declared in the vendor
header, not in this file.  The five enumerators the source names are constructors; `other`
stands for every discriminator value that is none of them ("or unknown" in the spec). -/
inductive cnpapiActivityType where
  | CNPAPI_ACTIVITY_TYPE_KERNEL
  | CNPAPI_ACTIVITY_TYPE_MEMCPY
  | CNPAPI_ACTIVITY_TYPE_MEMCPY_PTOP
  | CNPAPI_ACTIVITY_TYPE_MEMSET
  | CNPAPI_ACTIVITY_TYPE_CNDRV_API
  | other (raw : Nat)
  deriving DecidableEq, Repr

/-- Modelled from the spec: the enumeration `cnpapiActivityMemcpyType` is declared in the
vendor header.  The five enumerators named in `MemcpyKind` are constructors; `other` stands
for every copy-type value that is none of them ("unrecognized" in the spec). -/
inductive cnpapiActivityMemcpyType where
  | CNPAPI_ACTIVITY_MEMCPY_TYPE_HTOD
  | CNPAPI_ACTIVITY_MEMCPY_TYPE_DTOH
  | CNPAPI_ACTIVITY_MEMCPY_TYPE_DTOD
  | CNPAPI_ACTIVITY_MEMCPY_TYPE_HTOH
  | CNPAPI_ACTIVITY_MEMCPY_TYPE_PTOP
  | other (raw : Nat)
  deriving DecidableEq, Repr

/-- Modelled from the spec: the vendor struct `cnpapiActivityKernel` is declared outside this
file; the fields are exactly those `AddKernelRecord` reads (`end_` is the field `end`). -/
structure cnpapiActivityKernel where
  name : String
  start : Nat
  end_ : Nat
  device_id : Nat
  context_id : Nat
  queue_id : Nat
  correlation_id : Nat
  dimx : Nat
  dimy : Nat
  dimz : Nat
  kernel_type : Nat
  queued : Nat
  submitted : Nat
  received : Nat
  deriving DecidableEq, Repr, Inhabited

/-- Modelled from the spec: the vendor struct `cnpapiActivityMemcpy`, with the fields
`AddMemcpyRecord` reads. -/
structure cnpapiActivityMemcpy where
  copy_type : cnpapiActivityMemcpyType
  start : Nat
  end_ : Nat
  device_id : Nat
  context_id : Nat
  queue_id : Nat
  correlation_id : Nat
  bytes : Nat
  deriving DecidableEq, Repr

/-- Modelled from the spec: the vendor struct `cnpapiActivityMemcpyPtoP`, with the fields
`AddMemcpy2Record` reads. -/
structure cnpapiActivityMemcpyPtoP where
  copy_type : cnpapiActivityMemcpyType
  start : Nat
  end_ : Nat
  device_id : Nat
  context_id : Nat
  queue_id : Nat
  correlation_id : Nat
  bytes : Nat
  deriving DecidableEq, Repr

/-- Modelled from the spec: the vendor struct `cnpapiActivityMemset`, with the fields
`AddMemsetRecord` reads. -/
structure cnpapiActivityMemset where
  start : Nat
  end_ : Nat
  device_id : Nat
  context_id : Nat
  queue_id : Nat
  correlation_id : Nat
  bytes : Nat
  value : Nat
  deriving DecidableEq, Repr, Inhabited

/-- Modelled from the spec: the vendor struct `cnpapiActivityAPI`, with the fields
`AddApiRecord` reads.  `cbid` is the numeric callback identifier. -/
structure cnpapiActivityAPI where
  cbid : Nat
  start : Nat
  end_ : Nat
  process_id : Nat
  thread_id : Nat
  correlation_id : Nat
  deriving DecidableEq, Repr, Inhabited

/-- Modelled from the spec: the raw record `cnpapiActivity`.  The source switches on
`record->type` and then reads the same bytes through a `reinterpret_cast` to one of the five
record structs.  Each cast is a field here, so the five views are defined for every record,
whatever its discriminator says. -/
structure cnpapiActivity where
  type : cnpapiActivityType
  asKernel : cnpapiActivityKernel
  asMemcpy : cnpapiActivityMemcpy
  asMemcpyPtoP : cnpapiActivityMemcpyPtoP
  asMemset : cnpapiActivityMemset
  asAPI : cnpapiActivityAPI
  deriving DecidableEq, Repr

/-- Modelled from the spec: the values of `phi::TracerEventType` this file assigns. -/
inductive TracerEventType where
  | Kernel
  | Memcpy
  | Memset
  | CudaRuntime
  deriving DecidableEq, Repr

/-- Modelled from the spec: the members of `phi::KernelEventInfo` written by
`AddKernelRecord`. -/
structure KernelEventInfo where
  block_x : Nat
  block_y : Nat
  block_z : Nat
  grid_x : Nat
  grid_y : Nat
  grid_z : Nat
  queued : Nat
  submitted : Nat
  completed : Nat
  deriving DecidableEq, Repr

/-- Modelled from the spec: the members of `phi::MemcpyEventInfo` written by
`AddMemcpyRecord` and `AddMemcpy2Record`; `copy_kind` is the content of the character
buffer up to its terminating NUL. -/
structure MemcpyEventInfo where
  num_bytes : Nat
  copy_kind : String
  deriving DecidableEq, Repr

/-- Modelled from the spec: the members of `phi::MemsetEventInfo` written by
`AddMemsetRecord`. -/
structure MemsetEventInfo where
  num_bytes : Nat
  value : Nat
  deriving DecidableEq, Repr

/-- The kind-specific payload of a device event: the one member of the payload union that
the translating function writes. -/
inductive DeviceEventInfo where
  | kernel_info (i : KernelEventInfo)
  | memcpy_info (i : MemcpyEventInfo)
  | memset_info (i : MemsetEventInfo)
  deriving DecidableEq, Repr

/-- Modelled from the spec: `phi::DeviceTraceEvent`. -/
structure DeviceTraceEvent where
  name : String
  type : TracerEventType
  start_ns : Nat
  end_ns : Nat
  device_id : Nat
  context_id : Nat
  stream_id : Nat
  correlation_id : Nat
  info : DeviceEventInfo
  deriving DecidableEq, Repr

/-- Modelled from the spec: `phi::RuntimeTraceEvent`. -/
structure RuntimeTraceEvent where
  name : String
  start_ns : Nat
  end_ns : Nat
  process_id : Nat
  thread_id : Nat
  correlation_id : Nat
  callback_id : Nat
  type : TracerEventType
  deriving DecidableEq, Repr

/-- One submission to the collector. -/
inductive TraceEvent where
  | device (e : DeviceTraceEvent)
  | runtime (e : RuntimeTraceEvent)
  deriving DecidableEq, Repr

/-- The collector, as the log of what has been submitted to it, oldest first. -/
abbrev C_Profiler := List TraceEvent

/-- Modelled from the spec: the sink operation `profiler_add_device_trace_event`
(`SubmitDeviceEvent`), which records the event it is handed. -/
def profiler_add_device_trace_event (collector : C_Profiler) (event : DeviceTraceEvent) :
    C_Profiler :=
  collector ++ [TraceEvent.device event]

/-- Modelled from the spec: the sink operation `profiler_add_runtime_trace_event`
(`SubmitRuntimeEvent`), which records the event it is handed. -/
def profiler_add_runtime_trace_event (collector : C_Profiler) (event : RuntimeTraceEvent) :
    C_Profiler :=
  collector ++ [TraceEvent.runtime event]

/-- The thread-id map `std::unordered_map<uint32_t, uint64_t>`, as its list of entries. -/
abbrev TidMapping := List (Nat × Nat)

/-! ## Translation of the records -/

/-- The source function `demangle`: the identity. -/
def demangle (name : String) : String := name

/-- The source function `AddKernelRecord`. -/
def AddKernelRecord (kernel : cnpapiActivityKernel) (start_ns : Nat) (time_gap : Nat)
    (collector : C_Profiler) : C_Profiler :=
  if (kernel.start + time_gap) % UINT64_MOD < start_ns then
    collector
  else
    profiler_add_device_trace_event collector
      { name := demangle kernel.name
        type := TracerEventType.Kernel
        start_ns := (kernel.start + time_gap) % UINT64_MOD
        end_ns := (kernel.end_ + time_gap) % UINT64_MOD
        device_id := kernel.device_id
        context_id := kernel.context_id
        stream_id := kernel.queue_id
        correlation_id := kernel.correlation_id
        info := DeviceEventInfo.kernel_info
          { block_x := kernel.dimx
            block_y := kernel.dimy
            block_z := kernel.dimz
            grid_x := kernel.kernel_type
            grid_y := 0
            grid_z := 0
            queued := kernel.queued
            submitted := kernel.submitted
            completed := kernel.received } }

/-- The source function `MemcpyKind`. -/
def MemcpyKind (kind : cnpapiActivityMemcpyType) : String :=
  match kind with
  | cnpapiActivityMemcpyType.CNPAPI_ACTIVITY_MEMCPY_TYPE_HTOD => "MEMCPY_HtoD"
  | cnpapiActivityMemcpyType.CNPAPI_ACTIVITY_MEMCPY_TYPE_DTOH => "MEMCPY_DtoH"
  | cnpapiActivityMemcpyType.CNPAPI_ACTIVITY_MEMCPY_TYPE_DTOD => "MEMCPY_DtoD"
  | cnpapiActivityMemcpyType.CNPAPI_ACTIVITY_MEMCPY_TYPE_HTOH => "MEMCPY_HtoH"
  | cnpapiActivityMemcpyType.CNPAPI_ACTIVITY_MEMCPY_TYPE_PTOP => "MEMCPY_PtoP"
  | cnpapiActivityMemcpyType.other _ => "MEMCPY"

/-- The call `snprintf(buf, size, "%s", s)` as the string left in `buf`: at most `size - 1`
characters of `s` are stored before the terminating NUL.  (With `size = 0` nothing is
stored; the buffer is then taken to hold the empty string.) -/
def snprintf_s (size : Nat) (s : String) : String :=
  String.mk (s.data.take (size - 1))

/-- The source function `AddMemcpyRecord`. -/
def AddMemcpyRecord (kMemKindMaxLen : Nat) (memcpy : cnpapiActivityMemcpy) (start_ns : Nat)
    (time_gap : Nat) (collector : C_Profiler) : C_Profiler :=
  if (memcpy.start + time_gap) % UINT64_MOD < start_ns then
    collector
  else
    profiler_add_device_trace_event collector
      { name := MemcpyKind memcpy.copy_type
        type := TracerEventType.Memcpy
        start_ns := (memcpy.start + time_gap) % UINT64_MOD
        end_ns := (memcpy.end_ + time_gap) % UINT64_MOD
        device_id := memcpy.device_id
        context_id := memcpy.context_id
        stream_id := memcpy.queue_id
        correlation_id := memcpy.correlation_id
        info := DeviceEventInfo.memcpy_info
          { num_bytes := memcpy.bytes
            copy_kind := snprintf_s kMemKindMaxLen (MemcpyKind memcpy.copy_type) } }

/-- The source function `AddMemcpy2Record`. -/
def AddMemcpy2Record (kMemKindMaxLen : Nat) (memcpy2 : cnpapiActivityMemcpyPtoP)
    (start_ns : Nat) (time_gap : Nat) (collector : C_Profiler) : C_Profiler :=
  if (memcpy2.start + time_gap) % UINT64_MOD < start_ns then
    collector
  else
    profiler_add_device_trace_event collector
      { name := MemcpyKind memcpy2.copy_type
        type := TracerEventType.Memcpy
        start_ns := (memcpy2.start + time_gap) % UINT64_MOD
        end_ns := (memcpy2.end_ + time_gap) % UINT64_MOD
        device_id := memcpy2.device_id
        context_id := memcpy2.context_id
        stream_id := memcpy2.queue_id
        correlation_id := memcpy2.correlation_id
        info := DeviceEventInfo.memcpy_info
          { num_bytes := memcpy2.bytes
            copy_kind := snprintf_s kMemKindMaxLen (MemcpyKind memcpy2.copy_type) } }

/-- The source function `AddMemsetRecord`. -/
def AddMemsetRecord (memset : cnpapiActivityMemset) (start_ns : Nat) (time_gap : Nat)
    (collector : C_Profiler) : C_Profiler :=
  if (memset.start + time_gap) % UINT64_MOD < start_ns then
    collector
  else
    profiler_add_device_trace_event collector
      { name := "MEMSET"
        type := TracerEventType.Memset
        start_ns := (memset.start + time_gap) % UINT64_MOD
        end_ns := (memset.end_ + time_gap) % UINT64_MOD
        device_id := memset.device_id
        context_id := memset.context_id
        stream_id := memset.queue_id
        correlation_id := memset.correlation_id
        info := DeviceEventInfo.memset_info
          { num_bytes := memset.bytes
            value := memset.value } }

/-! ## Callback-id names -/

/-- The member `cbid_str_`, a `std::unordered_map<cnpapi_CallbackId, std::string>`, as the
finite lookup it implements: `m k = none` is `find(k) == end()`. -/
abbrev CbidMap := Nat → Option String

/-- The empty map. -/
def CbidMap.empty : CbidMap := fun _ => none

/-- The assignment `m[k] = v`: inserts the key or overwrites its value. -/
def CbidMap.assign (m : CbidMap) (k : Nat) (v : String) : CbidMap :=
  fun k1 => if k1 = k then some v else m k1

/-- The arguments of the `REGISTER_RUNTIME_CBID_STR` lines of the constructor, in order. -/
def registeredCbids : List String :=
  [ "cnMalloc", "cnMallocHost", "cnFree", "cnFreeHost", "cnMemcpy", "cnMemcpyPeer",
    "cnMemcpyHtoD", "cnMemcpyDtoH", "cnMemcpyDtoD", "cnMemcpyAsync", "cnMemcpyHtoDAsync",
    "cnMemcpyDtoHAsync", "cnMemcpyDtoDAsync", "cnMemcpyDtoD2D", "cnMemcpyDtoD3D",
    "cnMemcpy2D", "cnMemcpy3D", "cnMemsetD8", "cnMemsetD16", "cnMemsetD32",
    "cnMemsetD8Async", "cnMemsetD16Async", "cnMemsetD32Async", "cnInvokeKernel",
    "cnCreateQueue", "cnDestroyQueue", "cnQueueSync", "cnQueueWaitNotifier",
    "cnWaitNotifier", "cnCreateNotifier", "cnDestroyNotifier", "cnPlaceNotifier",
    "cnCtxCreate", "cnCtxDestroy", "cnCtxGetCurrent", "cnCtxSetCurrent", "cnCtxGetDevice",
    "cnCtxSync", "cnInvokeHostFunc" ]

/-- The statement `REGISTER_RUNTIME_CBID_STR(cbid)`, that is
`cbid_str_[CNPAPI_CNDRV_TRACE_CBID_##cbid] = #cbid`.  The enumerator values are declared in
the vendor header: `cbidValue cbid` is the value of `CNPAPI_CNDRV_TRACE_CBID_##cbid`. -/
def REGISTER_RUNTIME_CBID_STR (cbidValue : String → Nat) (cbid_str_ : CbidMap)
    (cbid : String) : CbidMap :=
  cbid_str_.assign (cbidValue cbid) cbid

/-- The constructor `CnpapiRuntimeCbidStr::CnpapiRuntimeCbidStr`: the table after the 39
registrations, run in source order on the empty map. -/
def CnpapiRuntimeCbidStr (cbidValue : String → Nat) : CbidMap :=
  registeredCbids.foldl (REGISTER_RUNTIME_CBID_STR cbidValue) CbidMap.empty

/-- The source function `CnpapiRuntimeCbidStr::RuntimeKind`; `Nat.repr cbid` is
`std::to_string(cbid)`, the decimal representation. -/
def RuntimeKind (cbid_str_ : CbidMap) (cbid : Nat) : String :=
  match cbid_str_ cbid with
  | none => "MLU Runtime API " ++ Nat.repr cbid
  | some name => name

/-- The source function `AddApiRecord`. -/
def AddApiRecord (cbidValue : String → Nat) (api : cnpapiActivityAPI) (start_ns : Nat)
    (_tid_mapping : TidMapping) (time_gap : Nat) (collector : C_Profiler) : C_Profiler :=
  if (api.start + time_gap) % UINT64_MOD < start_ns then
    collector
  else
    profiler_add_runtime_trace_event collector
      { name := RuntimeKind (CnpapiRuntimeCbidStr cbidValue) api.cbid
        start_ns := (api.start + time_gap) % UINT64_MOD
        end_ns := (api.end_ + time_gap) % UINT64_MOD
        process_id := api.process_id
        thread_id := api.thread_id
        correlation_id := api.correlation_id
        callback_id := api.cbid
        type := TracerEventType.CudaRuntime }

/-- The source function `ProcessCnpapiActivityRecord`. -/
def ProcessCnpapiActivityRecord (cbidValue : String → Nat) (kMemKindMaxLen : Nat)
    (record : cnpapiActivity) (start_ns : Nat) (tid_mapping : TidMapping) (time_gap : Nat)
    (collector : C_Profiler) : C_Profiler :=
  match record.type with
  | cnpapiActivityType.CNPAPI_ACTIVITY_TYPE_KERNEL =>
      AddKernelRecord record.asKernel start_ns time_gap collector
  | cnpapiActivityType.CNPAPI_ACTIVITY_TYPE_MEMCPY =>
      AddMemcpyRecord kMemKindMaxLen record.asMemcpy start_ns time_gap collector
  | cnpapiActivityType.CNPAPI_ACTIVITY_TYPE_MEMCPY_PTOP =>
      AddMemcpy2Record kMemKindMaxLen record.asMemcpyPtoP start_ns time_gap collector
  | cnpapiActivityType.CNPAPI_ACTIVITY_TYPE_MEMSET =>
      AddMemsetRecord record.asMemset start_ns time_gap collector
  | cnpapiActivityType.CNPAPI_ACTIVITY_TYPE_CNDRV_API =>
      AddApiRecord cbidValue record.asAPI start_ns tid_mapping time_gap collector
  | cnpapiActivityType.other _ => collector

/-! ## Clock offset -/

/-- The difference `a - b` of two `uint64_t` values, which wraps around below zero. -/
def u64_sub (a b : Nat) : Nat :=
  (a % UINT64_MOD + UINT64_MOD - b % UINT64_MOD) % UINT64_MOD

/-- The source function `GetTimeGap`.  The function-local `static uint64_t time_gap` is the
state `cache`: `none` until its initializer has run, `some` of the stored value afterwards.
`cpu_time` and `mlu_time` are what `PosixInNsec()` and `cnpapiGetTimestamp()` read at the
moment of the call; the source reads the two clocks only when the initializer runs.  The
result is the value returned and the state of the static after the call. -/
def GetTimeGap (cache : Option Nat) (cpu_time mlu_time : Nat) : Nat × Option Nat :=
  match cache with
  | some time_gap => (time_gap, some time_gap)
  | none =>
      let time_gap := u64_sub cpu_time mlu_time
      (time_gap, some time_gap)

/-! ## Aligned allocation -/

/-- The data model of the platform the file is compiled for: it fixes `sizeof(void *)` and
the width of `size_t`. -/
inductive DataModel where
  | ILP32
  | LP64
  deriving DecidableEq, Repr

/-- The constant `sizeof(void *)`. -/
def sizeof_voidp : DataModel → Nat
  | DataModel.ILP32 => 4
  | DataModel.LP64 => 8

/-- Modulus of `size_t` arithmetic. -/
def SIZE_MOD : DataModel → Nat
  | DataModel.ILP32 => 2 ^ 32
  | DataModel.LP64 => 2 ^ 64

/-- Which branch of the `#if` in `AlignedMalloc` and `AlignedFree` is compiled: the
`posix_memalign` branch, the `_WIN32` branch, or the portable `#else` branch. -/
inductive AllocBranch where
  | posix
  | win32
  | portable
  deriving DecidableEq, Repr

/-- The system allocators the source calls, by what they return.  `posix_memalign` takes
the alignment and the size and gives `some p` when it returns 0 and stores `p`, `none` when
it returns an error code; `aligned_malloc` (`_aligned_malloc`, size then alignment) and
`malloc` give an address, 0 for the null pointer. -/
structure SysAlloc where
  posix_memalign : Nat → Nat → Option Nat
  aligned_malloc : Nat → Nat → Nat
  malloc : Nat → Nat

/-- The pointer-sized slots of memory: `store a` is the pointer stored in the slot that
starts at address `a`. -/
abbrev Store := Nat → Nat

/-- The store after writing the pointer `v` into the slot at address `a`. -/
def Store.write (store : Store) (a v : Nat) : Store :=
  fun a1 => if a1 = a then v else store a1

/-- The statement `size = (size + alignment - 1) / alignment * alignment;` in `size_t`
arithmetic.  (For `alignment >= 1`, which the preceding assertion guarantees, wrapping after
`size + alignment` and again after `- 1` is the same as wrapping `size + alignment - 1`
once.  The product is at most the dividend, so the final reduction never changes it.) -/
def alignedSize (dm : DataModel) (size alignment : Nat) : Nat :=
  ((size + alignment - 1) % SIZE_MOD dm / alignment * alignment) % SIZE_MOD dm

/-- The source function `AlignedMalloc`.  The result is `none` when an `assert` fails, and
otherwise the pointer returned (0 for `nullptr`) and the store afterwards.  Addresses are
natural numbers: the cast of a pointer to `uint64_t` keeps its value, and `char *`
arithmetic is addition. -/
def AlignedMalloc (dm : DataModel) (branch : AllocBranch) (sys : SysAlloc) (store : Store)
    (size alignment : Nat) : Option (Nat × Store) :=
  if sizeof_voidp dm ≤ alignment ∧ alignment &&& (alignment - 1) = 0 then
    let size := alignedSize dm size alignment
    match branch with
    | AllocBranch.posix =>
        match sys.posix_memalign alignment size with
        | none => some (0, store)
        | some aligned_mem => some (aligned_mem, store)
    | AllocBranch.win32 => some (sys.aligned_malloc size alignment, store)
    | AllocBranch.portable =>
        let mem := sys.malloc ((size + alignment) % SIZE_MOD dm)
        if mem = 0 then
          some (0, store)
        else
          let adjust := alignment - mem % alignment
          let aligned_mem := mem + adjust
          let store := store.write (aligned_mem - sizeof_voidp dm) mem
          if aligned_mem % alignment = 0 then some (aligned_mem, store) else none
  else
    none

/-- What a call of `AlignedFree` hands back to the system. -/
inductive Released where
  | free (p : Nat)
  | aligned_free (p : Nat)
  | nothing
  deriving DecidableEq, Repr

/-- The source function `AlignedFree`. -/
def AlignedFree (dm : DataModel) (branch : AllocBranch) (store : Store) (mem_ptr : Nat) :
    Released :=
  match branch with
  | AllocBranch.posix => Released.free mem_ptr
  | AllocBranch.win32 => Released.aligned_free mem_ptr
  | AllocBranch.portable =>
      if mem_ptr ≠ 0 then Released.free (store (mem_ptr - sizeof_voidp dm))
      else Released.nothing

/-! ## The activity buffer pool -/

/-- Modelled from the spec: the struct `ActivityBuffer` is declared in the header; it holds
the pointer and the valid size handed to `ProduceBuffer`. -/
structure ActivityBuffer where
  addr : Nat
  valid_size : Nat
  deriving DecidableEq, Repr

/-- Modelled from the spec: the class `Tracer` is declared in the header.  Its state, as far
as this file uses it, is the vector `activity_buffers_`; the mutex orders the calls and is
not part of the sequential state. -/
structure Tracer where
  activity_buffers_ : List ActivityBuffer
  deriving DecidableEq, Repr

/-- Modelled from the spec: a newly constructed pool, whose vector is empty. -/
def Tracer.init : Tracer :=
  { activity_buffers_ := [] }

/-- The source function `Tracer::AllocateBuffer`: the values stored in `*buffer` and
`*size`, and the store afterwards (`none` when an `assert` of `AlignedMalloc` fails). -/
def Tracer.AllocateBuffer (dm : DataModel) (branch : AllocBranch) (sys : SysAlloc)
    (store : Store) : Option ((Nat × Nat) × Store) :=
  let kBufferSize := 1 <<< 23
  let kBufferAlignSize := 8
  match AlignedMalloc dm branch sys store kBufferSize kBufferAlignSize with
  | none => none
  | some (buffer, store) => some ((buffer, kBufferSize), store)

/-- The source function `Tracer::ProduceBuffer`. -/
def Tracer.ProduceBuffer (t : Tracer) (buffer valid_size : Nat) : Tracer :=
  { activity_buffers_ := t.activity_buffers_ ++ [{ addr := buffer, valid_size := valid_size }] }

/-- The source function `Tracer::ConsumeBuffers`: the local vector `buffers` starts empty
and is swapped with `activity_buffers_`.  The result is the vector returned and the pool
afterwards. -/
def Tracer.ConsumeBuffers (t : Tracer) : List ActivityBuffer × Tracer :=
  let buffers : List ActivityBuffer := []
  (t.activity_buffers_, { activity_buffers_ := buffers })

/-- The source function `Tracer::ReleaseBuffer`. -/
def Tracer.ReleaseBuffer (dm : DataModel) (branch : AllocBranch) (store : Store)
    (buffer : Nat) : Released :=
  AlignedFree dm branch store buffer

/-! ## Vocabulary of the statements -/

/-- The raw start timestamp of a record of a known type: the `start` field of the struct its
discriminator selects.  A record of an unknown type has none. -/
def rawStart (record : cnpapiActivity) : Option Nat :=
  match record.type with
  | cnpapiActivityType.CNPAPI_ACTIVITY_TYPE_KERNEL => some record.asKernel.start
  | cnpapiActivityType.CNPAPI_ACTIVITY_TYPE_MEMCPY => some record.asMemcpy.start
  | cnpapiActivityType.CNPAPI_ACTIVITY_TYPE_MEMCPY_PTOP => some record.asMemcpyPtoP.start
  | cnpapiActivityType.CNPAPI_ACTIVITY_TYPE_MEMSET => some record.asMemset.start
  | cnpapiActivityType.CNPAPI_ACTIVITY_TYPE_CNDRV_API => some record.asAPI.start
  | cnpapiActivityType.other _ => none

/-- The raw end timestamp of a record of a known type. -/
def rawEnd (record : cnpapiActivity) : Option Nat :=
  match record.type with
  | cnpapiActivityType.CNPAPI_ACTIVITY_TYPE_KERNEL => some record.asKernel.end_
  | cnpapiActivityType.CNPAPI_ACTIVITY_TYPE_MEMCPY => some record.asMemcpy.end_
  | cnpapiActivityType.CNPAPI_ACTIVITY_TYPE_MEMCPY_PTOP => some record.asMemcpyPtoP.end_
  | cnpapiActivityType.CNPAPI_ACTIVITY_TYPE_MEMSET => some record.asMemset.end_
  | cnpapiActivityType.CNPAPI_ACTIVITY_TYPE_CNDRV_API => some record.asAPI.end_
  | cnpapiActivityType.other _ => none

/-- The start timestamp of a submitted event. -/
def TraceEvent.start_ns : TraceEvent → Nat
  | TraceEvent.device e => e.start_ns
  | TraceEvent.runtime e => e.start_ns

/-- The end timestamp of a submitted event. -/
def TraceEvent.end_ns : TraceEvent → Nat
  | TraceEvent.device e => e.end_ns
  | TraceEvent.runtime e => e.end_ns

/-- The memcpy struct a record is read as when its discriminator is Memcpy or MemcpyPtoP
(the peer-to-peer struct is returned field by field); `none` for every other discriminator. -/
def asAnyMemcpy (record : cnpapiActivity) : Option cnpapiActivityMemcpy :=
  match record.type with
  | cnpapiActivityType.CNPAPI_ACTIVITY_TYPE_MEMCPY => some record.asMemcpy
  | cnpapiActivityType.CNPAPI_ACTIVITY_TYPE_MEMCPY_PTOP =>
      some
        { copy_type := record.asMemcpyPtoP.copy_type
          start := record.asMemcpyPtoP.start
          end_ := record.asMemcpyPtoP.end_
          device_id := record.asMemcpyPtoP.device_id
          context_id := record.asMemcpyPtoP.context_id
          queue_id := record.asMemcpyPtoP.queue_id
          correlation_id := record.asMemcpyPtoP.correlation_id
          bytes := record.asMemcpyPtoP.bytes }
  | _ => none

/-- The pool after `ProduceBuffer` has been called for each of `bs`, in order. -/
def produceAll (t : Tracer) (bs : List ActivityBuffer) : Tracer :=
  bs.foldl (fun t b => t.ProduceBuffer b.addr b.valid_size) t

/-- The values returned by successive calls of `GetTimeGap`, one per pair of clock readings
(host, device), starting from the state `cache` of the static. -/
def GetTimeGap_run (cache : Option Nat) : List (Nat × Nat) → List Nat
  | [] => []
  | (cpu_time, mlu_time) :: later =>
      (GetTimeGap cache cpu_time mlu_time).1 ::
        GetTimeGap_run (GetTimeGap cache cpu_time mlu_time).2 later

/-- The number that a list of decimal digit characters denotes, read from the most
significant digit, continuing from the value `acc` of the digits already read. -/
def decimalValue (acc : Nat) (digits : List Char) : Nat :=
  digits.foldl (fun a c => a * 10 + (c.toNat - 48)) acc

/-! ## Concrete inputs -/

/-- A record with every field zero and a discriminator outside the five known ones. -/
def blankRecord : cnpapiActivity :=
  { type := cnpapiActivityType.other 0
    asKernel := default
    asMemcpy := ⟨cnpapiActivityMemcpyType.other 0, 0, 0, 0, 0, 0, 0, 0⟩
    asMemcpyPtoP := ⟨cnpapiActivityMemcpyType.other 0, 0, 0, 0, 0, 0, 0, 0⟩
    asMemset := default
    asAPI := default }

/-- A sample numbering of the callback identifiers: each registered name gets its position
in the registration order (so the 39 values are 0, ..., 38). -/
def sampleCbidValue (cbid : String) : Nat :=
  registeredCbids.indexOf cbid

/-- The Kernel record of the round-trip scenario: start 1000, end 2000. -/
def kernelRecord : cnpapiActivity :=
  { blankRecord with
    type := cnpapiActivityType.CNPAPI_ACTIVITY_TYPE_KERNEL
    asKernel :=
      { name := "vector_add", start := 1000, end_ := 2000, device_id := 1, context_id := 2,
        queue_id := 3, correlation_id := 77, dimx := 4, dimy := 2, dimz := 1,
        kernel_type := 8, queued := 990, submitted := 995, received := 2010 } }

/-- A host-to-device Memcpy record of 4096 bytes. -/
def memcpyRecord : cnpapiActivity :=
  { blankRecord with
    type := cnpapiActivityType.CNPAPI_ACTIVITY_TYPE_MEMCPY
    asMemcpy :=
      { copy_type := cnpapiActivityMemcpyType.CNPAPI_ACTIVITY_MEMCPY_TYPE_HTOD
        start := 1000, end_ := 2000, device_id := 1, context_id := 2, queue_id := 3,
        correlation_id := 78, bytes := 4096 } }

/-- A peer-to-peer record whose copy type is not one of the five named ones. -/
def memcpyPtoPRecord : cnpapiActivity :=
  { blankRecord with
    type := cnpapiActivityType.CNPAPI_ACTIVITY_TYPE_MEMCPY_PTOP
    asMemcpyPtoP :=
      { copy_type := cnpapiActivityMemcpyType.other 42
        start := 1000, end_ := 2000, device_id := 1, context_id := 2, queue_id := 3,
        correlation_id := 79, bytes := 512 } }

/-- A CNDRV API record with the callback id 99999. -/
def apiRecord : cnpapiActivity :=
  { blankRecord with
    type := cnpapiActivityType.CNPAPI_ACTIVITY_TYPE_CNDRV_API
    asAPI :=
      { cbid := 99999, start := 1000, end_ := 2000, process_id := 4242, thread_id := 4243,
        correlation_id := 80 } }

/-- A Memset record of 256 bytes with fill value 255. -/
def memsetRecord : cnpapiActivity :=
  { blankRecord with
    type := cnpapiActivityType.CNPAPI_ACTIVITY_TYPE_MEMSET
    asMemset :=
      { start := 1000, end_ := 2000, device_id := 1, context_id := 2, queue_id := 3,
        correlation_id := 81, bytes := 256, value := 255 } }

/-- System allocators that always fail. -/
def failingAlloc : SysAlloc :=
  { posix_memalign := fun _ _ => none
    aligned_malloc := fun _ _ => 0
    malloc := fun _ => 0 }

/-- A store whose slots all hold the null pointer. -/
def emptyStore : Store := fun _ => 0

/-- System allocators whose `malloc` hands out the address 4096 for every request of at
most 4096 bytes (a request of zero bytes included) and fails for larger ones. -/
def smallAlloc : SysAlloc :=
  { posix_memalign := fun _ _ => none
    aligned_malloc := fun _ _ => 0
    malloc := fun n => if n ≤ 4096 then 4096 else 0 }

/-- The event the Kernel record "vector_add" is translated to with the clock offset 50. -/
def kernelEvent : TraceEvent :=
  TraceEvent.device
    { name := "vector_add", type := TracerEventType.Kernel, start_ns := 1050,
      end_ns := 2050, device_id := 1, context_id := 2, stream_id := 3,
      correlation_id := 77,
      info := DeviceEventInfo.kernel_info
        { block_x := 4, block_y := 2, block_z := 1, grid_x := 8, grid_y := 0, grid_z := 0,
          queued := 990, submitted := 995, completed := 2010 } }

/-! ## The staleness filter and the dispatch -/

/-- C1: a record of a known type whose adjusted start `(start + time_gap) mod 2^64` is
earlier than the boundary `start_ns` leaves the collector as it was: no device event and no
runtime event is submitted. -/
theorem stale_record_submits_nothing (cbidValue : String → Nat) (kMemKindMaxLen : Nat)
    (record : cnpapiActivity) (start_ns : Nat) (tid_mapping : TidMapping) (time_gap : Nat)
    (collector : C_Profiler) (s : Nat) (hs : rawStart record = some s)
    (hlt : (s + time_gap) % UINT64_MOD < start_ns) :
    ProcessCnpapiActivityRecord cbidValue kMemKindMaxLen record start_ns tid_mapping time_gap
      collector = collector := by
  unfold rawStart at hs
  unfold ProcessCnpapiActivityRecord
  split at hs <;> simp_all [AddKernelRecord, AddMemcpyRecord, AddMemcpy2Record,
    AddMemsetRecord, AddApiRecord]

/-- A Kernel record starting at 1000 with offset 50 is dropped at the boundary 1051. -/
theorem stale_record_submits_nothing_witness :
    rawStart kernelRecord = some 1000 ∧ (1000 + 50) % UINT64_MOD < 1051 ∧
    ProcessCnpapiActivityRecord sampleCbidValue 50 kernelRecord 1051 [] 50 [] = [] :=
  ⟨rfl, by decide,
    stale_record_submits_nothing sampleCbidValue 50 kernelRecord 1051 [] 50 [] 1000 rfl
      (by decide)⟩

/-- C2: a record of a known type whose adjusted start `(start + time_gap) mod 2^64` is at
or after the boundary `start_ns` (equality included) adds exactly one event to the
collector, with `start_ns = (start + time_gap) mod 2^64` and
`end_ns = (end + time_gap) mod 2^64`. -/
theorem fresh_record_submits_one_event (cbidValue : String → Nat) (kMemKindMaxLen : Nat)
    (record : cnpapiActivity) (start_ns : Nat) (tid_mapping : TidMapping) (time_gap : Nat)
    (collector : C_Profiler) (s e : Nat) (hs : rawStart record = some s)
    (he : rawEnd record = some e) (hge : start_ns ≤ (s + time_gap) % UINT64_MOD) :
    ∃ ev : TraceEvent,
      ProcessCnpapiActivityRecord cbidValue kMemKindMaxLen record start_ns tid_mapping
        time_gap collector = collector ++ [ev] ∧
      ev.start_ns = (s + time_gap) % UINT64_MOD ∧
      ev.end_ns = (e + time_gap) % UINT64_MOD := by
  have hfresh : ¬ (s + time_gap) % UINT64_MOD < start_ns := Nat.not_lt.mpr hge
  rcases record with ⟨ty, k, m, p, ms, a⟩
  cases ty <;> simp only [rawStart, rawEnd, Option.some.injEq, reduceCtorEq] at hs he <;>
    subst hs he <;>
    simp only [ProcessCnpapiActivityRecord, AddKernelRecord, AddMemcpyRecord,
      AddMemcpy2Record, AddMemsetRecord, AddApiRecord, profiler_add_device_trace_event,
      profiler_add_runtime_trace_event, if_neg hfresh] <;>
    exact ⟨_, rfl, rfl, rfl⟩

/-- The round-trip scenario: a Kernel record with start 1000 and end 2000, offset 50 and
boundary 900 yields one event with `start_ns = 1050` and `end_ns = 2050`. -/
theorem fresh_record_submits_one_event_witness :
    ∃ ev : TraceEvent,
      ProcessCnpapiActivityRecord sampleCbidValue 50 kernelRecord 900 [] 50 [] = [] ++ [ev] ∧
      ev.start_ns = 1050 ∧ ev.end_ns = 2050 :=
  fresh_record_submits_one_event sampleCbidValue 50 kernelRecord 900 [] 50 [] 1000 2000 rfl
    rfl (by decide)

/-- C3: a record whose discriminator is none of Kernel, Memcpy, MemcpyPtoP, Memset and
CNDRV API leaves the collector as it was, for every boundary and offset; the translation is
a total function, so there is no error outcome. -/
theorem unknown_type_submits_nothing (cbidValue : String → Nat) (kMemKindMaxLen : Nat)
    (record : cnpapiActivity) (start_ns : Nat) (tid_mapping : TidMapping) (time_gap : Nat)
    (collector : C_Profiler)
    (hk : record.type ≠ cnpapiActivityType.CNPAPI_ACTIVITY_TYPE_KERNEL)
    (hm : record.type ≠ cnpapiActivityType.CNPAPI_ACTIVITY_TYPE_MEMCPY)
    (hp : record.type ≠ cnpapiActivityType.CNPAPI_ACTIVITY_TYPE_MEMCPY_PTOP)
    (hs : record.type ≠ cnpapiActivityType.CNPAPI_ACTIVITY_TYPE_MEMSET)
    (ha : record.type ≠ cnpapiActivityType.CNPAPI_ACTIVITY_TYPE_CNDRV_API) :
    ProcessCnpapiActivityRecord cbidValue kMemKindMaxLen record start_ns tid_mapping time_gap
      collector = collector := by
  unfold ProcessCnpapiActivityRecord
  split <;> simp_all

/-- A record with an unknown discriminator submits nothing at boundary 0. -/
theorem unknown_type_submits_nothing_witness :
    ProcessCnpapiActivityRecord sampleCbidValue 50 blankRecord 0 [] 50 [] = [] :=
  unknown_type_submits_nothing sampleCbidValue 50 blankRecord 0 [] 50 []
    (by decide) (by decide) (by decide) (by decide) (by decide)

/-! ## Memory copies -/

/-- A string shorter than the buffer is stored whole by `snprintf`. -/
theorem snprintf_s_of_length_lt (size : Nat) (s : String) (h : s.length < size) :
    snprintf_s size s = s := by
  unfold snprintf_s
  have hl : s.data.length ≤ size - 1 := by
    have : s.data.length = s.length := rfl
    omega
  rw [List.take_of_length_le hl]

/-- What the dispatch does with a Memcpy or MemcpyPtoP record that passes the filter. -/
theorem process_fresh_memcpy (cbidValue : String → Nat) (kMemKindMaxLen : Nat)
    (record : cnpapiActivity) (start_ns : Nat) (tid_mapping : TidMapping) (time_gap : Nat)
    (collector : C_Profiler) (m : cnpapiActivityMemcpy) (hm : asAnyMemcpy record = some m)
    (hge : start_ns ≤ (m.start + time_gap) % UINT64_MOD) :
    ProcessCnpapiActivityRecord cbidValue kMemKindMaxLen record start_ns tid_mapping time_gap
      collector =
    collector ++ [TraceEvent.device
      { name := MemcpyKind m.copy_type
        type := TracerEventType.Memcpy
        start_ns := (m.start + time_gap) % UINT64_MOD
        end_ns := (m.end_ + time_gap) % UINT64_MOD
        device_id := m.device_id
        context_id := m.context_id
        stream_id := m.queue_id
        correlation_id := m.correlation_id
        info := DeviceEventInfo.memcpy_info
          { num_bytes := m.bytes
            copy_kind := snprintf_s kMemKindMaxLen (MemcpyKind m.copy_type) } }] := by
  have hfresh : ¬ (m.start + time_gap) % UINT64_MOD < start_ns := Nat.not_lt.mpr hge
  rcases record with ⟨ty, k, mc, p, ms, a⟩
  cases ty <;> simp only [asAnyMemcpy, Option.some.injEq, reduceCtorEq] at hm <;>
    subst hm <;>
    simp only [ProcessCnpapiActivityRecord, AddMemcpyRecord, AddMemcpy2Record,
      profiler_add_device_trace_event] <;>
    rw [if_neg hfresh]

/-- C4: a Memcpy or MemcpyPtoP record that passes the staleness filter adds one device
event of kind Memcpy whose name and copy-kind label are both `MemcpyKind copy_type`, whose
byte count is the record's `bytes`, and whose device, context, stream and correlation ids
are the record's `device_id`, `context_id`, `queue_id` and `correlation_id`.  The label is
stored by an `snprintf` bounded by `kMemKindMaxLen`; it is assumed to fit. -/
theorem memcpy_event_fields (cbidValue : String → Nat) (kMemKindMaxLen : Nat)
    (record : cnpapiActivity) (start_ns : Nat) (tid_mapping : TidMapping) (time_gap : Nat)
    (collector : C_Profiler) (m : cnpapiActivityMemcpy) (hm : asAnyMemcpy record = some m)
    (hge : start_ns ≤ (m.start + time_gap) % UINT64_MOD)
    (hfit : (MemcpyKind m.copy_type).length < kMemKindMaxLen) :
    ∃ e : DeviceTraceEvent,
      ProcessCnpapiActivityRecord cbidValue kMemKindMaxLen record start_ns tid_mapping
        time_gap collector = collector ++ [TraceEvent.device e] ∧
      e.type = TracerEventType.Memcpy ∧
      e.name = MemcpyKind m.copy_type ∧
      e.info = DeviceEventInfo.memcpy_info
        { num_bytes := m.bytes, copy_kind := MemcpyKind m.copy_type } ∧
      e.device_id = m.device_id ∧ e.context_id = m.context_id ∧
      e.stream_id = m.queue_id ∧ e.correlation_id = m.correlation_id := by
  refine ⟨_, process_fresh_memcpy cbidValue kMemKindMaxLen record start_ns tid_mapping
    time_gap collector m hm hge, rfl, rfl, ?_, rfl, rfl, rfl, rfl⟩
  simp only [snprintf_s_of_length_lt kMemKindMaxLen _ hfit]

/-- A host-to-device copy of 4096 bytes yields the label "MEMCPY_HtoD" and 4096 bytes. -/
theorem memcpy_event_fields_witness :
    ∃ e : DeviceTraceEvent,
      ProcessCnpapiActivityRecord sampleCbidValue 50 memcpyRecord 900 [] 50 [] =
        [] ++ [TraceEvent.device e] ∧
      e.type = TracerEventType.Memcpy ∧
      e.name = "MEMCPY_HtoD" ∧
      e.info = DeviceEventInfo.memcpy_info
        { num_bytes := 4096, copy_kind := "MEMCPY_HtoD" } ∧
      e.device_id = 1 ∧ e.context_id = 2 ∧ e.stream_id = 3 ∧ e.correlation_id = 78 :=
  memcpy_event_fields sampleCbidValue 50 memcpyRecord 900 [] 50 [] memcpyRecord.asMemcpy rfl
    (by decide) (by decide)

/-- C5: `MemcpyKind` is a total function that sends HTOD, DTOH, DTOD, HTOH and PTOP to
five pairwise distinct labels and every other copy type to "MEMCPY"; hence a Memcpy or
MemcpyPtoP record with an unrecognized copy type that passes the filter still adds one
device event, named "MEMCPY" (and with copy-kind label "MEMCPY" when the label buffer
holds more than six characters). -/
theorem MemcpyKind_total_with_fallback :
    (MemcpyKind cnpapiActivityMemcpyType.CNPAPI_ACTIVITY_MEMCPY_TYPE_HTOD = "MEMCPY_HtoD" ∧
     MemcpyKind cnpapiActivityMemcpyType.CNPAPI_ACTIVITY_MEMCPY_TYPE_DTOH = "MEMCPY_DtoH" ∧
     MemcpyKind cnpapiActivityMemcpyType.CNPAPI_ACTIVITY_MEMCPY_TYPE_DTOD = "MEMCPY_DtoD" ∧
     MemcpyKind cnpapiActivityMemcpyType.CNPAPI_ACTIVITY_MEMCPY_TYPE_HTOH = "MEMCPY_HtoH" ∧
     MemcpyKind cnpapiActivityMemcpyType.CNPAPI_ACTIVITY_MEMCPY_TYPE_PTOP = "MEMCPY_PtoP") ∧
    List.Nodup
      [MemcpyKind cnpapiActivityMemcpyType.CNPAPI_ACTIVITY_MEMCPY_TYPE_HTOD,
       MemcpyKind cnpapiActivityMemcpyType.CNPAPI_ACTIVITY_MEMCPY_TYPE_DTOH,
       MemcpyKind cnpapiActivityMemcpyType.CNPAPI_ACTIVITY_MEMCPY_TYPE_DTOD,
       MemcpyKind cnpapiActivityMemcpyType.CNPAPI_ACTIVITY_MEMCPY_TYPE_HTOH,
       MemcpyKind cnpapiActivityMemcpyType.CNPAPI_ACTIVITY_MEMCPY_TYPE_PTOP] ∧
    (∀ raw : Nat, MemcpyKind (cnpapiActivityMemcpyType.other raw) = "MEMCPY") ∧
    (∀ (cbidValue : String → Nat) (kMemKindMaxLen : Nat) (record : cnpapiActivity)
        (start_ns : Nat) (tid_mapping : TidMapping) (time_gap : Nat) (collector : C_Profiler)
        (m : cnpapiActivityMemcpy) (raw : Nat),
      asAnyMemcpy record = some m →
      m.copy_type = cnpapiActivityMemcpyType.other raw →
      start_ns ≤ (m.start + time_gap) % UINT64_MOD →
      ∃ e : DeviceTraceEvent,
        ProcessCnpapiActivityRecord cbidValue kMemKindMaxLen record start_ns tid_mapping
          time_gap collector = collector ++ [TraceEvent.device e] ∧
        e.name = "MEMCPY" ∧
        e.info = DeviceEventInfo.memcpy_info
          { num_bytes := m.bytes, copy_kind := snprintf_s kMemKindMaxLen "MEMCPY" } ∧
        (6 < kMemKindMaxLen → snprintf_s kMemKindMaxLen "MEMCPY" = "MEMCPY")) := by
  refine ⟨⟨rfl, rfl, rfl, rfl, rfl⟩, by decide, fun _ => rfl, ?_⟩
  intro cbidValue kMemKindMaxLen record start_ns tid_mapping time_gap collector m raw hm hct
    hge
  refine ⟨_, process_fresh_memcpy cbidValue kMemKindMaxLen record start_ns tid_mapping
    time_gap collector m hm hge, ?_, ?_, ?_⟩
  · simp only [hct, MemcpyKind]
  · simp only [hct, MemcpyKind]
  · intro hlen
    exact snprintf_s_of_length_lt kMemKindMaxLen _ hlen

/-- A peer-to-peer record with the unnamed copy type 42 still yields one event, labelled
"MEMCPY". -/
theorem MemcpyKind_total_with_fallback_witness :
    ∃ e : DeviceTraceEvent,
      ProcessCnpapiActivityRecord sampleCbidValue 50 memcpyPtoPRecord 1050 [] 50 [] =
        [] ++ [TraceEvent.device e] ∧
      e.name = "MEMCPY" ∧
      e.info = DeviceEventInfo.memcpy_info
        { num_bytes := 512, copy_kind := snprintf_s 50 "MEMCPY" } ∧
      (6 < 50 → snprintf_s 50 "MEMCPY" = "MEMCPY") :=
  MemcpyKind_total_with_fallback.2.2.2 sampleCbidValue 50 memcpyPtoPRecord 1050 [] 50 []
    ⟨cnpapiActivityMemcpyType.other 42, 1000, 2000, 1, 2, 3, 79, 512⟩ 42 rfl rfl (by decide)

/-! ## Callback-id names -/

/-- Registrations under keys other than `k` leave the entry of `k` as it was. -/
theorem foldl_register_of_forall_ne (cbidValue : String → Nat) (k : Nat) (l : List String)
    (m0 : CbidMap) (h : ∀ n ∈ l, cbidValue n ≠ k) :
    (l.foldl (REGISTER_RUNTIME_CBID_STR cbidValue) m0) k = m0 k := by
  induction l generalizing m0 with
  | nil => rfl
  | cons x xs ih =>
    rw [List.foldl_cons, ih _ (fun n hn => h n (List.mem_cons_of_mem x hn))]
    have hx : k ≠ cbidValue x := fun hk => h x (List.mem_cons_self x xs) hk.symm
    simp only [REGISTER_RUNTIME_CBID_STR, CbidMap.assign, if_neg hx]

/-- When the registered names have pairwise distinct keys, a registered name is what is
stored under its key after all the registrations. -/
theorem foldl_register_of_mem (cbidValue : String → Nat) (l : List String) (m0 : CbidMap)
    (hinj : ∀ a ∈ l, ∀ b ∈ l, cbidValue a = cbidValue b → a = b) (n : String) (hn : n ∈ l) :
    (l.foldl (REGISTER_RUNTIME_CBID_STR cbidValue) m0) (cbidValue n) = some n := by
  induction l generalizing m0 with
  | nil => cases hn
  | cons x xs ih =>
    rw [List.foldl_cons]
    by_cases hxs : n ∈ xs
    · exact ih _ (fun a ha b hb => hinj a (List.mem_cons_of_mem x ha) b
        (List.mem_cons_of_mem x hb)) hxs
    · have hnx : n = x := by
        rcases List.mem_cons.1 hn with h | h
        · exact h
        · exact absurd h hxs
      subst hnx
      rw [foldl_register_of_forall_ne cbidValue (cbidValue n) xs _ (fun b hb hk =>
        hxs (by
          have := hinj b (List.mem_cons_of_mem n hb) n (List.mem_cons_self n xs) hk
          exact this ▸ hb))]
      simp only [REGISTER_RUNTIME_CBID_STR, CbidMap.assign, if_pos]

/-- What the dispatch does with a CNDRV API record that passes the filter. -/
theorem process_fresh_api (cbidValue : String → Nat) (kMemKindMaxLen : Nat)
    (record : cnpapiActivity) (start_ns : Nat) (tid_mapping : TidMapping) (time_gap : Nat)
    (collector : C_Profiler)
    (hty : record.type = cnpapiActivityType.CNPAPI_ACTIVITY_TYPE_CNDRV_API)
    (hge : start_ns ≤ (record.asAPI.start + time_gap) % UINT64_MOD) :
    ProcessCnpapiActivityRecord cbidValue kMemKindMaxLen record start_ns tid_mapping time_gap
      collector =
    collector ++ [TraceEvent.runtime
      { name := RuntimeKind (CnpapiRuntimeCbidStr cbidValue) record.asAPI.cbid
        start_ns := (record.asAPI.start + time_gap) % UINT64_MOD
        end_ns := (record.asAPI.end_ + time_gap) % UINT64_MOD
        process_id := record.asAPI.process_id
        thread_id := record.asAPI.thread_id
        correlation_id := record.asAPI.correlation_id
        callback_id := record.asAPI.cbid
        type := TracerEventType.CudaRuntime }] := by
  have hfresh : ¬ (record.asAPI.start + time_gap) % UINT64_MOD < start_ns :=
    Nat.not_lt.mpr hge
  simp only [ProcessCnpapiActivityRecord, hty, AddApiRecord,
    profiler_add_runtime_trace_event, if_neg hfresh]

/-- C6: for a callback id that no registration uses as its key, `RuntimeKind` returns
"MLU Runtime API " followed by the decimal representation of the id; a CNDRV API record
with such an id that passes the filter adds one runtime event with that name, which
contains the decimal digits of the id.  `RuntimeKind` is a total function. -/
theorem RuntimeKind_unregistered (cbidValue : String → Nat) (cbid : Nat)
    (hun : ∀ n ∈ registeredCbids, cbidValue n ≠ cbid) :
    RuntimeKind (CnpapiRuntimeCbidStr cbidValue) cbid = "MLU Runtime API " ++ Nat.repr cbid ∧
    ∀ (kMemKindMaxLen : Nat) (record : cnpapiActivity) (start_ns : Nat)
      (tid_mapping : TidMapping) (time_gap : Nat) (collector : C_Profiler),
      record.type = cnpapiActivityType.CNPAPI_ACTIVITY_TYPE_CNDRV_API →
      record.asAPI.cbid = cbid →
      start_ns ≤ (record.asAPI.start + time_gap) % UINT64_MOD →
      ∃ e : RuntimeTraceEvent,
        ProcessCnpapiActivityRecord cbidValue kMemKindMaxLen record start_ns tid_mapping
          time_gap collector = collector ++ [TraceEvent.runtime e] ∧
        e.name = "MLU Runtime API " ++ Nat.repr cbid ∧
        (Nat.repr cbid).data <:+: e.name.data := by
  have hkind : RuntimeKind (CnpapiRuntimeCbidStr cbidValue) cbid =
      "MLU Runtime API " ++ Nat.repr cbid := by
    unfold RuntimeKind CnpapiRuntimeCbidStr
    rw [foldl_register_of_forall_ne cbidValue cbid registeredCbids CbidMap.empty hun]
    rfl
  refine ⟨hkind, ?_⟩
  intro kMemKindMaxLen record start_ns tid_mapping time_gap collector hty hcb hge
  refine ⟨_, process_fresh_api cbidValue kMemKindMaxLen record start_ns tid_mapping time_gap
    collector hty hge, ?_, ?_⟩
  · simp only [hcb, hkind]
  · simp only [hcb, hkind, String.data_append]
    exact (List.suffix_append _ _).isInfix

/-- The id 99999 is not registered under the sample numbering: the event is named
"MLU Runtime API 99999". -/
theorem RuntimeKind_unregistered_witness :
    RuntimeKind (CnpapiRuntimeCbidStr sampleCbidValue) 99999 = "MLU Runtime API 99999" ∧
    ∃ e : RuntimeTraceEvent,
      ProcessCnpapiActivityRecord sampleCbidValue 50 apiRecord 900 [] 50 [] =
        [] ++ [TraceEvent.runtime e] ∧
      e.name = "MLU Runtime API 99999" ∧
      "99999".data <:+: e.name.data :=
  have h := RuntimeKind_unregistered sampleCbidValue 99999
    (fun n _ hk => absurd (hk ▸ List.indexOf_le_length : 99999 ≤ registeredCbids.length)
      (by decide))
  ⟨h.1, h.2 50 apiRecord 900 [] 50 [] rfl rfl (by decide)⟩

/-- C7: when the 39 registered callback identifiers have pairwise distinct numeric values,
`RuntimeKind` returns for each of them exactly its name (the identifier without the
`CNPAPI_CNDRV_TRACE_CBID_` prefix), which is never the fallback string. -/
theorem RuntimeKind_registered (cbidValue : String → Nat)
    (hinj : ∀ a ∈ registeredCbids, ∀ b ∈ registeredCbids,
      cbidValue a = cbidValue b → a = b) :
    registeredCbids.length = 39 ∧ registeredCbids.Nodup ∧
    ∀ n ∈ registeredCbids,
      RuntimeKind (CnpapiRuntimeCbidStr cbidValue) (cbidValue n) = n ∧
      RuntimeKind (CnpapiRuntimeCbidStr cbidValue) (cbidValue n) ≠
        "MLU Runtime API " ++ Nat.repr (cbidValue n) := by
  refine ⟨rfl, by decide, fun n hn => ?_⟩
  have hkind : RuntimeKind (CnpapiRuntimeCbidStr cbidValue) (cbidValue n) = n := by
    unfold RuntimeKind CnpapiRuntimeCbidStr
    rw [foldl_register_of_mem cbidValue registeredCbids CbidMap.empty hinj n hn]
  refine ⟨hkind, ?_⟩
  rw [hkind]
  intro hfb
  have hc : ∀ a ∈ registeredCbids, a.data.head? = some (Char.ofNat 99) := by decide
  have h1 := hc n hn
  rw [hfb] at h1
  simp [String.data_append] at h1

/-- Under the sample numbering, the key of `cnMalloc` is named "cnMalloc" and the key of
`cnInvokeHostFunc` is named "cnInvokeHostFunc". -/
theorem RuntimeKind_registered_witness :
    RuntimeKind (CnpapiRuntimeCbidStr sampleCbidValue) (sampleCbidValue "cnMalloc") =
      "cnMalloc" ∧
    RuntimeKind (CnpapiRuntimeCbidStr sampleCbidValue) (sampleCbidValue "cnInvokeHostFunc") =
      "cnInvokeHostFunc" :=
  have h := (RuntimeKind_registered sampleCbidValue
    (fun _ ha _ hb hab => (List.indexOf_inj ha hb).1 hab)).2.2
  ⟨(h "cnMalloc" (by decide)).1, (h "cnInvokeHostFunc" (by decide)).1⟩

/-- C8: a CNDRV API record that passes the staleness filter adds one runtime event whose
name is `RuntimeKind cbid` and whose process id, thread id, correlation id and callback id
are the record's `process_id`, `thread_id`, `correlation_id` and `cbid`. -/
theorem api_event_fields (cbidValue : String → Nat) (kMemKindMaxLen : Nat)
    (record : cnpapiActivity) (start_ns : Nat) (tid_mapping : TidMapping) (time_gap : Nat)
    (collector : C_Profiler)
    (hty : record.type = cnpapiActivityType.CNPAPI_ACTIVITY_TYPE_CNDRV_API)
    (hge : start_ns ≤ (record.asAPI.start + time_gap) % UINT64_MOD) :
    ∃ e : RuntimeTraceEvent,
      ProcessCnpapiActivityRecord cbidValue kMemKindMaxLen record start_ns tid_mapping
        time_gap collector = collector ++ [TraceEvent.runtime e] ∧
      e.name = RuntimeKind (CnpapiRuntimeCbidStr cbidValue) record.asAPI.cbid ∧
      e.process_id = record.asAPI.process_id ∧
      e.thread_id = record.asAPI.thread_id ∧
      e.correlation_id = record.asAPI.correlation_id ∧
      e.callback_id = record.asAPI.cbid :=
  ⟨_, process_fresh_api cbidValue kMemKindMaxLen record start_ns tid_mapping time_gap
    collector hty hge, rfl, rfl, rfl, rfl, rfl⟩

/-- The API record of process 4242, thread 4243, correlation 80 and callback id 99999. -/
theorem api_event_fields_witness :
    ∃ e : RuntimeTraceEvent,
      ProcessCnpapiActivityRecord sampleCbidValue 50 apiRecord 900 [] 50 [] =
        [] ++ [TraceEvent.runtime e] ∧
      e.name = RuntimeKind (CnpapiRuntimeCbidStr sampleCbidValue) 99999 ∧
      e.process_id = 4242 ∧ e.thread_id = 4243 ∧ e.correlation_id = 80 ∧
      e.callback_id = 99999 :=
  api_event_fields sampleCbidValue 50 apiRecord 900 [] 50 [] rfl (by decide)

/-! ## Memset and kernel events -/

/-- C9: a Memset record that passes the staleness filter adds one device event of kind
Memset named "MEMSET", whose payload holds the record's `bytes` and `value` and whose
device, context, stream and correlation ids are the record's `device_id`, `context_id`,
`queue_id` and `correlation_id`. -/
theorem memset_event_fields (cbidValue : String → Nat) (kMemKindMaxLen : Nat)
    (record : cnpapiActivity) (start_ns : Nat) (tid_mapping : TidMapping) (time_gap : Nat)
    (collector : C_Profiler)
    (hty : record.type = cnpapiActivityType.CNPAPI_ACTIVITY_TYPE_MEMSET)
    (hge : start_ns ≤ (record.asMemset.start + time_gap) % UINT64_MOD) :
    ∃ e : DeviceTraceEvent,
      ProcessCnpapiActivityRecord cbidValue kMemKindMaxLen record start_ns tid_mapping
        time_gap collector = collector ++ [TraceEvent.device e] ∧
      e.type = TracerEventType.Memset ∧
      e.name = "MEMSET" ∧
      e.info = DeviceEventInfo.memset_info
        { num_bytes := record.asMemset.bytes, value := record.asMemset.value } ∧
      e.device_id = record.asMemset.device_id ∧
      e.context_id = record.asMemset.context_id ∧
      e.stream_id = record.asMemset.queue_id ∧
      e.correlation_id = record.asMemset.correlation_id := by
  have hfresh : ¬ (record.asMemset.start + time_gap) % UINT64_MOD < start_ns :=
    Nat.not_lt.mpr hge
  have hrun : ProcessCnpapiActivityRecord cbidValue kMemKindMaxLen record start_ns
      tid_mapping time_gap collector =
      AddMemsetRecord record.asMemset start_ns time_gap collector := by
    simp only [ProcessCnpapiActivityRecord, hty]
  rw [hrun, AddMemsetRecord, if_neg hfresh]
  exact ⟨_, rfl, rfl, rfl, rfl, rfl, rfl, rfl, rfl⟩

/-- A Memset of 256 bytes with value 255 on device 1, context 2, queue 3. -/
theorem memset_event_fields_witness :
    ∃ e : DeviceTraceEvent,
      ProcessCnpapiActivityRecord sampleCbidValue 50 memsetRecord 1050 [] 50 [] =
        [] ++ [TraceEvent.device e] ∧
      e.type = TracerEventType.Memset ∧
      e.name = "MEMSET" ∧
      e.info = DeviceEventInfo.memset_info { num_bytes := 256, value := 255 } ∧
      e.device_id = 1 ∧ e.context_id = 2 ∧ e.stream_id = 3 ∧ e.correlation_id = 81 :=
  memset_event_fields sampleCbidValue 50 memsetRecord 1050 [] 50 [] rfl (by decide)

/-- What `AddKernelRecord` does with a record that passes the filter. -/
theorem AddKernelRecord_fresh (kernel : cnpapiActivityKernel) (start_ns : Nat)
    (time_gap : Nat) (collector : C_Profiler)
    (hge : start_ns ≤ (kernel.start + time_gap) % UINT64_MOD) :
    AddKernelRecord kernel start_ns time_gap collector =
    collector ++ [TraceEvent.device
      { name := kernel.name
        type := TracerEventType.Kernel
        start_ns := (kernel.start + time_gap) % UINT64_MOD
        end_ns := (kernel.end_ + time_gap) % UINT64_MOD
        device_id := kernel.device_id
        context_id := kernel.context_id
        stream_id := kernel.queue_id
        correlation_id := kernel.correlation_id
        info := DeviceEventInfo.kernel_info
          { block_x := kernel.dimx
            block_y := kernel.dimy
            block_z := kernel.dimz
            grid_x := kernel.kernel_type
            grid_y := 0
            grid_z := 0
            queued := kernel.queued
            submitted := kernel.submitted
            completed := kernel.received } }] := by
  have hfresh : ¬ (kernel.start + time_gap) % UINT64_MOD < start_ns := Nat.not_lt.mpr hge
  rw [AddKernelRecord, if_neg hfresh]
  rfl

/-- C10, as the code has it: a Kernel record that passes the staleness filter adds one
device event of kind Kernel, named as the record, with `block_x, block_y, block_z` equal to
the record's `dimx, dimy, dimz`, with `grid_x` equal to the record's `kernel_type` and
`grid_y = grid_z = 0`, and with `queued`, `submitted` and `completed` equal to the record's
`queued`, `submitted` and `received`. -/
theorem kernel_event_fields (cbidValue : String → Nat) (kMemKindMaxLen : Nat)
    (record : cnpapiActivity) (start_ns : Nat) (tid_mapping : TidMapping) (time_gap : Nat)
    (collector : C_Profiler)
    (hty : record.type = cnpapiActivityType.CNPAPI_ACTIVITY_TYPE_KERNEL)
    (hge : start_ns ≤ (record.asKernel.start + time_gap) % UINT64_MOD) :
    ∃ e : DeviceTraceEvent,
      ProcessCnpapiActivityRecord cbidValue kMemKindMaxLen record start_ns tid_mapping
        time_gap collector = collector ++ [TraceEvent.device e] ∧
      e.type = TracerEventType.Kernel ∧
      e.name = record.asKernel.name ∧
      e.info = DeviceEventInfo.kernel_info
        { block_x := record.asKernel.dimx
          block_y := record.asKernel.dimy
          block_z := record.asKernel.dimz
          grid_x := record.asKernel.kernel_type
          grid_y := 0
          grid_z := 0
          queued := record.asKernel.queued
          submitted := record.asKernel.submitted
          completed := record.asKernel.received } := by
  have hrun : ProcessCnpapiActivityRecord cbidValue kMemKindMaxLen record start_ns
      tid_mapping time_gap collector =
      AddKernelRecord record.asKernel start_ns time_gap collector := by
    simp only [ProcessCnpapiActivityRecord, hty]
  rw [hrun, AddKernelRecord_fresh record.asKernel start_ns time_gap collector hge]
  exact ⟨_, rfl, rfl, rfl, rfl⟩

/-- The kernel "vector_add" with dimensions 4 x 2 x 1 and kernel type 8. -/
theorem kernel_event_fields_witness :
    ∃ e : DeviceTraceEvent,
      ProcessCnpapiActivityRecord sampleCbidValue 50 kernelRecord 1050 [] 50 [] =
        [] ++ [TraceEvent.device e] ∧
      e.type = TracerEventType.Kernel ∧
      e.name = "vector_add" ∧
      e.info = DeviceEventInfo.kernel_info
        { block_x := 4, block_y := 2, block_z := 1, grid_x := 8, grid_y := 0, grid_z := 0,
          queued := 990, submitted := 995, completed := 2010 } :=
  kernel_event_fields sampleCbidValue 50 kernelRecord 1050 [] 50 [] rfl (by decide)

/-- C10, as stated, fails: the grid fields of a Kernel event are not dimensions carried
over from the record.  The record "vector_add" has the dimensions 4 x 2 x 1 and the kernel
type 8, and its event has the grid fields (8, 0, 0); and whatever a Kernel record holds,
the event made from it has `grid_x = kernel_type`, `grid_y = 0` and `grid_z = 0`. -/
theorem kernel_grid_fields_not_carried :
    (kernelRecord.asKernel.dimx = 4 ∧ kernelRecord.asKernel.dimy = 2 ∧
      kernelRecord.asKernel.dimz = 1 ∧ kernelRecord.asKernel.kernel_type = 8 ∧
      ∃ e : DeviceTraceEvent, ∃ i : KernelEventInfo,
        ProcessCnpapiActivityRecord sampleCbidValue 50 kernelRecord 900 [] 50 [] =
          [TraceEvent.device e] ∧
        e.info = DeviceEventInfo.kernel_info i ∧
        (i.grid_x, i.grid_y, i.grid_z) = (8, 0, 0) ∧
        (i.grid_x, i.grid_y, i.grid_z) ≠
          (kernelRecord.asKernel.dimx, kernelRecord.asKernel.dimy,
            kernelRecord.asKernel.dimz)) ∧
    ∀ (kernel : cnpapiActivityKernel) (start_ns time_gap : Nat) (collector : C_Profiler)
      (e : DeviceTraceEvent),
      AddKernelRecord kernel start_ns time_gap collector =
        collector ++ [TraceEvent.device e] →
      ∃ i : KernelEventInfo, e.info = DeviceEventInfo.kernel_info i ∧
        i.grid_x = kernel.kernel_type ∧ i.grid_y = 0 ∧ i.grid_z = 0 := by
  refine ⟨⟨rfl, rfl, rfl, rfl,
    { name := "vector_add", type := TracerEventType.Kernel, start_ns := 1050,
      end_ns := 2050, device_id := 1, context_id := 2, stream_id := 3,
      correlation_id := 77,
      info := DeviceEventInfo.kernel_info ⟨4, 2, 1, 8, 0, 0, 990, 995, 2010⟩ },
    ⟨4, 2, 1, 8, 0, 0, 990, 995, 2010⟩, ?_, rfl, rfl, by decide⟩, ?_⟩
  · show AddKernelRecord kernelRecord.asKernel 900 50 [] = _
    rw [AddKernelRecord_fresh kernelRecord.asKernel 900 50 [] (by decide)]
    rfl
  · intro kernel start_ns time_gap collector e h
    by_cases hlt : (kernel.start + time_gap) % UINT64_MOD < start_ns
    · rw [AddKernelRecord, if_pos hlt] at h
      have hlen := congrArg List.length h
      simp at hlen
    · rw [AddKernelRecord_fresh kernel start_ns time_gap collector (Nat.not_lt.mp hlt)] at h
      have he := List.append_cancel_left h
      simp only [List.cons.injEq, TraceEvent.device.injEq, and_true] at he
      subst he
      exact ⟨_, rfl, rfl, rfl, rfl⟩

/-- C11, as stated, fails: the Kernel record "vector_add" (queued 990, submitted 995,
received 2010) translated with the clock offset 50 gives an event whose `start_ns` and
`end_ns` are shifted by the offset (1050 and 2050), while `queued`, `submitted` and
`completed` are the raw values 990, 995 and 2010, not 1040, 1045 and 2060. -/
theorem kernel_queue_timestamps_not_aligned :
    ∃ e : DeviceTraceEvent, ∃ i : KernelEventInfo,
      ProcessCnpapiActivityRecord sampleCbidValue 50 kernelRecord 900 [] 50 [] =
        [TraceEvent.device e] ∧
      e.info = DeviceEventInfo.kernel_info i ∧
      e.start_ns = (kernelRecord.asKernel.start + 50) % UINT64_MOD ∧
      e.end_ns = (kernelRecord.asKernel.end_ + 50) % UINT64_MOD ∧
      (i.queued, i.submitted, i.completed) = (990, 995, 2010) ∧
      i.queued ≠ (kernelRecord.asKernel.queued + 50) % UINT64_MOD ∧
      i.submitted ≠ (kernelRecord.asKernel.submitted + 50) % UINT64_MOD ∧
      i.completed ≠ (kernelRecord.asKernel.received + 50) % UINT64_MOD := by
  refine ⟨
    { name := "vector_add", type := TracerEventType.Kernel, start_ns := 1050,
      end_ns := 2050, device_id := 1, context_id := 2, stream_id := 3,
      correlation_id := 77,
      info := DeviceEventInfo.kernel_info ⟨4, 2, 1, 8, 0, 0, 990, 995, 2010⟩ },
    ⟨4, 2, 1, 8, 0, 0, 990, 995, 2010⟩, ?_, rfl, by decide, by decide, rfl, by decide,
    by decide, by decide⟩
  show AddKernelRecord kernelRecord.asKernel 900 50 [] = _
  rw [AddKernelRecord_fresh kernelRecord.asKernel 900 50 [] (by decide)]
  rfl

/-! ## The activity buffer pool -/

/-- The queue after a run of `ProduceBuffer` calls is the old queue followed by the
submitted pairs. -/
theorem produceAll_activity_buffers (t : Tracer) (bs : List ActivityBuffer) :
    (produceAll t bs).activity_buffers_ = t.activity_buffers_ ++ bs := by
  unfold produceAll
  induction bs generalizing t with
  | nil => simp
  | cons b rest ih =>
    rw [List.foldl_cons, ih]
    simp [Tracer.ProduceBuffer]

/-- C12: in the sequential model of the pool, `ConsumeBuffers` returns exactly the pairs
passed to `ProduceBuffer` since construction, or since the previous `ConsumeBuffers`, in
submission order; it leaves the queue empty, so a `ConsumeBuffers` right after it returns
the empty sequence. -/
theorem ConsumeBuffers_returns_produced (t : Tracer) (bs : List ActivityBuffer) :
    (produceAll Tracer.init bs).ConsumeBuffers.1 = bs ∧
    (produceAll t.ConsumeBuffers.2 bs).ConsumeBuffers.1 = bs ∧
    (produceAll t bs).ConsumeBuffers.2.activity_buffers_ = [] ∧
    (produceAll t bs).ConsumeBuffers.2.ConsumeBuffers.1 = [] := by
  refine ⟨?_, ?_, rfl, rfl⟩
  · show (produceAll Tracer.init bs).activity_buffers_ = bs
    rw [produceAll_activity_buffers]
    rfl
  · show (produceAll t.ConsumeBuffers.2 bs).activity_buffers_ = bs
    rw [produceAll_activity_buffers]
    rfl

/-! ## Clock offset -/

/-- Once the static holds a value, every later call returns it, whatever the clocks read. -/
theorem GetTimeGap_run_cached (time_gap : Nat) (later : List (Nat × Nat)) :
    GetTimeGap_run (some time_gap) later = List.replicate later.length time_gap := by
  induction later with
  | nil => rfl
  | cons r rest ih =>
    rcases r with ⟨c, m⟩
    simp only [GetTimeGap_run, GetTimeGap, ih, List.length_cons, List.replicate_succ]

/-- C15: the first call of `GetTimeGap` returns `cpu_time - mlu_time` in `uint64_t`
arithmetic (a value below 2^64 that, added to the device reading, gives the host reading
modulo 2^64, and the plain difference when the device clock is not ahead), and every later
call returns that same value whatever the two clocks read then. -/
theorem GetTimeGap_computed_once (cpu_time mlu_time : Nat) (later : List (Nat × Nat)) :
    (GetTimeGap none cpu_time mlu_time).1 = u64_sub cpu_time mlu_time ∧
    u64_sub cpu_time mlu_time < UINT64_MOD ∧
    (u64_sub cpu_time mlu_time + mlu_time) % UINT64_MOD = cpu_time % UINT64_MOD ∧
    (mlu_time ≤ cpu_time → cpu_time < UINT64_MOD →
      u64_sub cpu_time mlu_time = cpu_time - mlu_time) ∧
    GetTimeGap_run none ((cpu_time, mlu_time) :: later) =
      List.replicate (later.length + 1) (u64_sub cpu_time mlu_time) := by
  have hM : 0 < UINT64_MOD := by unfold UINT64_MOD; positivity
  refine ⟨rfl, Nat.mod_lt _ hM, ?_, ?_, ?_⟩
  · simp only [u64_sub, UINT64_MOD, Nat.reducePow]
    omega
  · intro hle hlt
    unfold u64_sub
    have h2 : mlu_time < UINT64_MOD := lt_of_le_of_lt hle hlt
    rw [Nat.mod_eq_of_lt hlt, Nat.mod_eq_of_lt h2,
      show cpu_time + UINT64_MOD - mlu_time = (cpu_time - mlu_time) + UINT64_MOD by omega,
      Nat.add_mod_right]
    exact Nat.mod_eq_of_lt (by omega)
  · simp only [GetTimeGap_run, GetTimeGap, GetTimeGap_run_cached, List.replicate_succ]

/-! ## Aligned allocation -/

/-- The pointer size is positive. -/
theorem sizeof_voidp_pos (dm : DataModel) : 0 < sizeof_voidp dm := by
  cases dm <;> decide

/-- The address `mem + (alignment - mem % alignment)` is a multiple of `alignment`. -/
theorem aligned_address_mod (mem alignment : Nat) (h : 0 < alignment) :
    (mem + (alignment - mem % alignment)) % alignment = 0 := by
  have hlt := Nat.mod_lt mem h
  have hd := Nat.div_add_mod mem alignment
  have key : mem + (alignment - mem % alignment) = alignment * (mem / alignment + 1) := by
    rw [Nat.mul_succ]
    omega
  rw [key]
  exact Nat.mul_mod_right _ _

/-- When the entry assertion of `AlignedMalloc` holds, no assertion fails: the call returns
a pointer. -/
theorem AlignedMalloc_isSome (dm : DataModel) (branch : AllocBranch) (sys : SysAlloc)
    (store : Store) (size alignment : Nat)
    (hassert : sizeof_voidp dm ≤ alignment ∧ alignment &&& (alignment - 1) = 0) :
    ∃ p : Nat, ∃ store1 : Store,
      AlignedMalloc dm branch sys store size alignment = some (p, store1) := by
  have hpos : 0 < alignment := lt_of_lt_of_le (sizeof_voidp_pos dm) hassert.1
  unfold AlignedMalloc
  rw [if_pos hassert]
  cases branch with
  | posix =>
    simp only
    cases sys.posix_memalign alignment (alignedSize dm size alignment) with
    | none => exact ⟨_, _, rfl⟩
    | some q => exact ⟨_, _, rfl⟩
  | win32 => exact ⟨_, _, rfl⟩
  | portable =>
    simp only
    split
    · exact ⟨_, _, rfl⟩
    · rw [if_pos (aligned_address_mod _ alignment hpos)]
      exact ⟨_, _, rfl⟩

/-- C13, as the code has it: `Tracer::AllocateBuffer` reports the pointer that
`AlignedMalloc(1 << 23, 8)` returns, null or not, and in both cases the capacity
2^23 = 8388608: the capacity is stored unconditionally. -/
theorem AllocateBuffer_reports_fixed_capacity (dm : DataModel) (branch : AllocBranch)
    (sys : SysAlloc) (store : Store) :
    ∃ buffer : Nat, ∃ store1 : Store,
      AlignedMalloc dm branch sys store (1 <<< 23) 8 = some (buffer, store1) ∧
      Tracer.AllocateBuffer dm branch sys store = some ((buffer, 8388608), store1) := by
  have hassert : sizeof_voidp dm ≤ 8 ∧ 8 &&& (8 - 1) = 0 := by
    cases dm <;> decide
  obtain ⟨p, store1, h⟩ := AlignedMalloc_isSome dm branch sys store (1 <<< 23) 8 hassert
  refine ⟨p, store1, h, ?_⟩
  unfold Tracer.AllocateBuffer
  simp only [h]
  rfl

/-- C13, as stated, fails: when the allocator fails, `AlignedMalloc` returns the null
pointer and `Tracer::AllocateBuffer` reports the null pointer with the capacity 8388608,
not zero. -/
theorem AllocateBuffer_null_with_nonzero_capacity :
    AlignedMalloc DataModel.LP64 AllocBranch.posix failingAlloc emptyStore (1 <<< 23) 8 =
      some (0, emptyStore) ∧
    Tracer.AllocateBuffer DataModel.LP64 AllocBranch.posix failingAlloc emptyStore =
      some ((0, 8388608), emptyStore) ∧
    ∀ size : Nat,
      Tracer.AllocateBuffer DataModel.LP64 AllocBranch.posix failingAlloc emptyStore =
        some ((0, size), emptyStore) → size ≠ 0 := by
  refine ⟨rfl, rfl, ?_⟩
  intro size h
  have h1 : Tracer.AllocateBuffer DataModel.LP64 AllocBranch.posix failingAlloc emptyStore =
      some ((0, 8388608), emptyStore) := rfl
  rw [h1] at h
  simp only [Option.some.injEq, Prod.mk.injEq, true_and, and_true] at h
  omega

/-! ## Independence of the thread-id map and preservation of durations -/

/-- What the dispatch does with a record of a known type: nothing when the record is
stale, and otherwise one event with the shifted start and end. -/
theorem process_known_type (cbidValue : String → Nat) (kMemKindMaxLen : Nat)
    (record : cnpapiActivity) (start_ns : Nat) (tid_mapping : TidMapping) (time_gap : Nat)
    (collector : C_Profiler) (s e : Nat) (hs : rawStart record = some s)
    (he : rawEnd record = some e) :
    ∃ ev : TraceEvent,
      ev.start_ns = (s + time_gap) % UINT64_MOD ∧
      ev.end_ns = (e + time_gap) % UINT64_MOD ∧
      ProcessCnpapiActivityRecord cbidValue kMemKindMaxLen record start_ns tid_mapping
        time_gap collector =
        if (s + time_gap) % UINT64_MOD < start_ns then collector else collector ++ [ev] := by
  rcases record with ⟨ty, k, m, p, ms, a⟩
  cases ty <;> simp only [rawStart, rawEnd, Option.some.injEq, reduceCtorEq] at hs he <;>
    subst hs he <;>
    simp only [ProcessCnpapiActivityRecord, AddKernelRecord, AddMemcpyRecord,
      AddMemcpy2Record, AddMemsetRecord, AddApiRecord, profiler_add_device_trace_event,
      profiler_add_runtime_trace_event] <;>
    refine ⟨_, ?_, ?_, rfl⟩ <;>
    rfl

/-- A collector is never equal to itself with one more event. -/
theorem collector_ne_append_singleton (collector : C_Profiler) (ev : TraceEvent) :
    collector ≠ collector ++ [ev] := by
  intro h
  have hlen := congrArg List.length h
  simp at hlen

/-- C17: the thread-id map has no influence on the translation: any two maps give the
same collector; and a runtime event added by the translation has the raw `thread_id` of the
record. -/
theorem tid_mapping_has_no_influence (cbidValue : String → Nat) (kMemKindMaxLen : Nat)
    (record : cnpapiActivity) (start_ns : Nat) (tid_mapping1 tid_mapping2 : TidMapping)
    (time_gap : Nat) (collector : C_Profiler) :
    ProcessCnpapiActivityRecord cbidValue kMemKindMaxLen record start_ns tid_mapping1 time_gap
      collector =
    ProcessCnpapiActivityRecord cbidValue kMemKindMaxLen record start_ns tid_mapping2 time_gap
      collector ∧
    ∀ e : RuntimeTraceEvent,
      ProcessCnpapiActivityRecord cbidValue kMemKindMaxLen record start_ns tid_mapping1
        time_gap collector = collector ++ [TraceEvent.runtime e] →
      e.thread_id = record.asAPI.thread_id := by
  refine ⟨rfl, ?_⟩
  intro e h
  rcases record with ⟨ty, k, m, p, ms, a⟩
  cases ty <;>
    simp only [ProcessCnpapiActivityRecord, AddKernelRecord, AddMemcpyRecord,
      AddMemcpy2Record, AddMemsetRecord, AddApiRecord, profiler_add_device_trace_event,
      profiler_add_runtime_trace_event] at h <;>
    first
    | exact absurd h (collector_ne_append_singleton collector _)
    | (split at h
       · exact absurd h (collector_ne_append_singleton collector _)
       · have h1 := List.append_cancel_left h
         first
         | (simp only [List.cons.injEq, and_true, TraceEvent.runtime.injEq] at h1
            subst h1
            rfl)
         | simp only [List.cons.injEq, and_true, reduceCtorEq] at h1)

/-- C18: translation preserves durations.  For every event the translation adds,
`end_ns - start_ns` equals `end - start` of the record modulo 2^64, for every offset; and
when the record has `start <= end` and neither `start + time_gap` nor `end + time_gap`
exceeds 2^64 - 1, the event has `start_ns <= end_ns`. -/
theorem translation_preserves_duration (cbidValue : String → Nat) (kMemKindMaxLen : Nat)
    (record : cnpapiActivity) (start_ns : Nat) (tid_mapping : TidMapping) (time_gap : Nat)
    (collector : C_Profiler) (s e : Nat) (ev : TraceEvent)
    (hs : rawStart record = some s) (he : rawEnd record = some e)
    (hev : ProcessCnpapiActivityRecord cbidValue kMemKindMaxLen record start_ns tid_mapping
      time_gap collector = collector ++ [ev]) :
    ((ev.end_ns : ℤ) - (ev.start_ns : ℤ)) % (UINT64_MOD : ℤ) =
      ((e : ℤ) - (s : ℤ)) % (UINT64_MOD : ℤ) ∧
    (s ≤ e → s + time_gap < UINT64_MOD → e + time_gap < UINT64_MOD →
      ev.start_ns ≤ ev.end_ns) := by
  obtain ⟨ev0, hs0, he0, hrun⟩ := process_known_type cbidValue kMemKindMaxLen record start_ns
    tid_mapping time_gap collector s e hs he
  rw [hrun] at hev
  split at hev
  · exact absurd hev (collector_ne_append_singleton collector ev)
  · have h1 := List.append_cancel_left hev
    simp only [List.cons.injEq, and_true] at h1
    subst h1
    rw [hs0, he0]
    constructor
    · push_cast
      rw [← Int.sub_emod]
      congr 1
      ring
    · intro hse hsg heg
      rw [Nat.mod_eq_of_lt hsg, Nat.mod_eq_of_lt heg]
      omega

/-- The Kernel record "vector_add" with offset 50: the duration 1000 is kept. -/
theorem translation_preserves_duration_witness :
    ((kernelEvent.end_ns : ℤ) - (kernelEvent.start_ns : ℤ)) % (UINT64_MOD : ℤ) =
      (((2000 : ℕ) : ℤ) - ((1000 : ℕ) : ℤ)) % (UINT64_MOD : ℤ) ∧
    (1000 ≤ 2000 → 1000 + 50 < UINT64_MOD → 2000 + 50 < UINT64_MOD →
      kernelEvent.start_ns ≤ kernelEvent.end_ns) :=
  translation_preserves_duration sampleCbidValue 50 kernelRecord 900 [] 50 [] 1000 2000
    kernelEvent rfl rfl (by decide)

/-- A thread-id map that sends the thread 4243 elsewhere changes nothing: the runtime event
of the API record keeps the thread id 4243. -/
theorem tid_mapping_has_no_influence_witness :
    ProcessCnpapiActivityRecord sampleCbidValue 50 apiRecord 900 [(4243, 1)] 50 [] =
      ProcessCnpapiActivityRecord sampleCbidValue 50 apiRecord 900 [] 50 [] ∧
    ∀ e : RuntimeTraceEvent,
      ProcessCnpapiActivityRecord sampleCbidValue 50 apiRecord 900 [(4243, 1)] 50 [] =
        [] ++ [TraceEvent.runtime e] →
      e.thread_id = 4243 :=
  tid_mapping_has_no_influence sampleCbidValue 50 apiRecord 900 [(4243, 1)] [] 50 []

/-- Host clock 1000000 and device clock 400 at the first call: the offset is 999600, also
for the two later calls, whose clocks read (5, 7) and (0, 99). -/
theorem GetTimeGap_computed_once_witness :
    (GetTimeGap none 1000000 400).1 = 999600 ∧
    GetTimeGap_run none [(1000000, 400), (5, 7), (0, 99)] = [999600, 999600, 999600] :=
  have h := GetTimeGap_computed_once 1000000 400 [(5, 7), (0, 99)]
  ⟨h.1.trans (h.2.2.2.1 (by decide) (by decide)),
    h.2.2.2.2.trans (by rw [h.2.2.2.1 (by decide) (by decide)]; rfl)⟩

/-- A power of two passes the bit test of the entry assertion. -/
theorem pow_two_land_pred (k : Nat) : 2 ^ k &&& (2 ^ k - 1) = 0 := by
  rw [Nat.and_pow_two_sub_one_eq_mod, Nat.mod_self]

/-- C14: for an alignment that is a power of two and at least the pointer size, and a size
with `size + alignment - 1` representable in `size_t`, the size `AlignedMalloc` requests is
a multiple of the alignment, at least `size`, below `size + alignment`, and the least such
multiple; it is the size passed to `posix_memalign` and to `_aligned_malloc`. -/
theorem alignedSize_least_multiple (dm : DataModel) (size alignment : Nat)
    (hpow : ∃ k : Nat, alignment = 2 ^ k) (hge : sizeof_voidp dm ≤ alignment)
    (hrep : size + alignment - 1 < SIZE_MOD dm) :
    alignment ∣ alignedSize dm size alignment ∧
    size ≤ alignedSize dm size alignment ∧
    alignedSize dm size alignment < size + alignment ∧
    (∀ m : Nat, alignment ∣ m → size ≤ m → alignedSize dm size alignment ≤ m) ∧
    (∀ (sys : SysAlloc) (store : Store),
      AlignedMalloc dm AllocBranch.posix sys store size alignment =
        some ((sys.posix_memalign alignment (alignedSize dm size alignment)).getD 0, store) ∧
      AlignedMalloc dm AllocBranch.win32 sys store size alignment =
        some (sys.aligned_malloc (alignedSize dm size alignment) alignment, store)) := by
  have hpos : 0 < alignment := lt_of_lt_of_le (sizeof_voidp_pos dm) hge
  have hle : (size + alignment - 1) / alignment * alignment ≤ size + alignment - 1 :=
    Nat.div_mul_le_self _ _
  have hval : alignedSize dm size alignment = (size + alignment - 1) / alignment * alignment := by
    unfold alignedSize
    rw [Nat.mod_eq_of_lt hrep, Nat.mod_eq_of_lt (lt_of_le_of_lt hle hrep)]
  have hd := Nat.div_add_mod (size + alignment - 1) alignment
  have hm := Nat.mod_lt (size + alignment - 1) hpos
  have hcomm : (size + alignment - 1) / alignment * alignment =
      alignment * ((size + alignment - 1) / alignment) := Nat.mul_comm _ _
  refine ⟨?_, ?_, ?_, ?_, ?_⟩
  · rw [hval]
    exact Nat.dvd_mul_left _ _
  · rw [hval, hcomm]
    omega
  · rw [hval]
    omega
  · rintro m ⟨c, rfl⟩ hsm
    rw [hval, Nat.mul_comm alignment c]
    apply Nat.mul_le_mul_right
    apply Nat.le_of_lt_succ
    rw [Nat.div_lt_iff_lt_mul hpos, Nat.succ_mul, Nat.mul_comm c alignment]
    omega
  · intro sys store
    have hassert : sizeof_voidp dm ≤ alignment ∧ alignment &&& (alignment - 1) = 0 := by
      obtain ⟨k, rfl⟩ := hpow
      exact ⟨hge, pow_two_land_pred k⟩
    unfold AlignedMalloc
    rw [if_pos hassert, if_pos hassert]
    refine ⟨?_, rfl⟩
    simp only
    cases sys.posix_memalign alignment (alignedSize dm size alignment) <;> rfl

/-- The request of 8388608 bytes aligned to 8 is kept as it is; 100 bytes aligned to 64 are
rounded up to 128. -/
theorem alignedSize_least_multiple_witness :
    alignedSize DataModel.LP64 8388608 8 = 8388608 ∧
    alignedSize DataModel.LP64 100 64 = 128 ∧
    (64 ∣ alignedSize DataModel.LP64 100 64 ∧
      100 ≤ alignedSize DataModel.LP64 100 64 ∧
      alignedSize DataModel.LP64 100 64 < 100 + 64) :=
  have h := alignedSize_least_multiple DataModel.LP64 100 64 ⟨6, by decide⟩ (by decide)
    (by decide)
  ⟨by decide, by decide, h.1, h.2.1, h.2.2.1⟩

/-- The pointer size divides every power-of-two alignment that is at least the pointer
size. -/
theorem sizeof_voidp_dvd_alignment (dm : DataModel) (k : Nat)
    (hge : sizeof_voidp dm ≤ 2 ^ k) : sizeof_voidp dm ∣ 2 ^ k := by
  cases dm with
  | ILP32 =>
    have h2 : 2 ≤ k := by
      by_contra hk
      have hk1 : k ≤ 1 := by omega
      have := Nat.pow_le_pow_right (by decide : 0 < 2) hk1
      simp only [sizeof_voidp] at hge
      omega
    exact pow_dvd_pow 2 h2
  | LP64 =>
    have h3 : 3 ≤ k := by
      by_contra hk
      have hk2 : k ≤ 2 := by omega
      have := Nat.pow_le_pow_right (by decide : 0 < 2) hk2
      simp only [sizeof_voidp] at hge
      omega
    exact pow_dvd_pow 2 h3

/-- C16, with the bound the code needs: in the portable path of `AlignedMalloc`, for a
power-of-two alignment at least the pointer size, a rounded size `r` with `r + alignment`
representable in `size_t`, and a non-null `malloc` result `mem` that is a multiple of the
pointer size, `adjust = alignment - mem % alignment` lies between the pointer size and the
alignment; the returned address `mem + adjust` is a multiple of the alignment and no
assertion fails; the stash slot lies in the block of `r + alignment` bytes at `mem`; the
user block of `r` bytes ends within that block; and `AlignedFree` hands exactly `mem` to
`free`. -/
theorem portable_AlignedMalloc_layout (dm : DataModel) (sys : SysAlloc) (store : Store)
    (size alignment mem : Nat)
    (hpow : ∃ k : Nat, alignment = 2 ^ k) (hge : sizeof_voidp dm ≤ alignment)
    (hfit : alignedSize dm size alignment + alignment < SIZE_MOD dm)
    (hmem : sys.malloc ((alignedSize dm size alignment + alignment) % SIZE_MOD dm) = mem)
    (hnn : mem ≠ 0) (hal : sizeof_voidp dm ∣ mem) :
    sizeof_voidp dm ≤ alignment - mem % alignment ∧
    alignment - mem % alignment ≤ alignment ∧
    (mem + (alignment - mem % alignment)) % alignment = 0 ∧
    mem ≤ mem + (alignment - mem % alignment) - sizeof_voidp dm ∧
    mem + (alignment - mem % alignment) ≤
      mem + (alignedSize dm size alignment + alignment) % SIZE_MOD dm ∧
    mem + (alignment - mem % alignment) + alignedSize dm size alignment ≤
      mem + (alignedSize dm size alignment + alignment) % SIZE_MOD dm ∧
    ∃ store1 : Store,
      AlignedMalloc dm AllocBranch.portable sys store size alignment =
        some (mem + (alignment - mem % alignment), store1) ∧
      AlignedFree dm AllocBranch.portable store1 (mem + (alignment - mem % alignment)) =
        Released.free mem := by
  have hppos := sizeof_voidp_pos dm
  have hpos : 0 < alignment := lt_of_lt_of_le hppos hge
  have hlt := Nat.mod_lt mem hpos
  have hdvd : sizeof_voidp dm ∣ alignment := by
    obtain ⟨k, rfl⟩ := hpow
    exact sizeof_voidp_dvd_alignment dm k hge
  have hadj : sizeof_voidp dm ≤ alignment - mem % alignment := by
    apply Nat.le_of_dvd (by omega)
    exact Nat.dvd_sub' hdvd ((Nat.dvd_mod_iff hdvd).2 hal)
  have hmod := aligned_address_mod mem alignment hpos
  have hassert : sizeof_voidp dm ≤ alignment ∧ alignment &&& (alignment - 1) = 0 := by
    obtain ⟨k, rfl⟩ := hpow
    exact ⟨hge, pow_two_land_pred k⟩
  rw [Nat.mod_eq_of_lt hfit] at hmem ⊢
  refine ⟨hadj, Nat.sub_le _ _, hmod, by omega, by omega, by omega, ?_⟩
  refine ⟨store.write (mem + (alignment - mem % alignment) - sizeof_voidp dm) mem, ?_, ?_⟩
  · unfold AlignedMalloc
    rw [if_pos hassert]
    simp only [Nat.mod_eq_of_lt hfit, hmem, if_neg hnn, if_pos hmod]
  · have hne : mem + (alignment - mem % alignment) ≠ 0 := by omega
    simp only [AlignedFree, Store.write, if_pos hne, ne_eq, not_false_eq_true, if_true]

/-- A request of 100 bytes aligned to 64 on a 64-bit platform, served by `malloc` at the
address 4096: the block returned starts at 4160 and `AlignedFree` releases 4096. -/
theorem portable_AlignedMalloc_layout_witness :
    sizeof_voidp DataModel.LP64 ≤ 64 - 4096 % 64 ∧
    (4096 + (64 - 4096 % 64)) % 64 = 0 ∧
    ∃ store1 : Store,
      AlignedMalloc DataModel.LP64 AllocBranch.portable smallAlloc emptyStore 100 64 =
        some (4096 + (64 - 4096 % 64), store1) ∧
      AlignedFree DataModel.LP64 AllocBranch.portable store1 (4096 + (64 - 4096 % 64)) =
        Released.free 4096 :=
  have h := portable_AlignedMalloc_layout DataModel.LP64 smallAlloc emptyStore 100 64 4096
    ⟨6, by decide⟩ (by decide) (by decide) (by decide) (by decide) (by decide)
  ⟨h.1, h.2.2.1, h.2.2.2.2.2.2⟩

/-- C16, as stated, fails for a rounded size next to the top of `size_t`: on a 64-bit
platform the size 2^64 - 8 with alignment 8 is already rounded, `size + alignment` wraps
to 0, and `malloc(0)` may return a non-null address, here 4096.  `AlignedMalloc` then
returns 4104 and stores the stash in the slot [4096, 4104), which is not inside the block
of 0 bytes at 4096, and the user block does not end within it either. -/
theorem portable_AlignedMalloc_overflow :
    alignedSize DataModel.LP64 (2 ^ 64 - 8) 8 = 2 ^ 64 - 8 ∧
    (alignedSize DataModel.LP64 (2 ^ 64 - 8) 8 + 8) % SIZE_MOD DataModel.LP64 = 0 ∧
    smallAlloc.malloc 0 = 4096 ∧
    4096 % sizeof_voidp DataModel.LP64 = 0 ∧
    (∃ store1 : Store,
      AlignedMalloc DataModel.LP64 AllocBranch.portable smallAlloc emptyStore (2 ^ 64 - 8) 8 =
        some (4104, store1) ∧ store1 4096 = 4096) ∧
    ¬ (4096 + (8 - 4096 % 8) ≤
        4096 + (alignedSize DataModel.LP64 (2 ^ 64 - 8) 8 + 8) % SIZE_MOD DataModel.LP64) ∧
    ¬ (4096 + (8 - 4096 % 8) + alignedSize DataModel.LP64 (2 ^ 64 - 8) 8 ≤
        4096 + (alignedSize DataModel.LP64 (2 ^ 64 - 8) 8 + 8) % SIZE_MOD DataModel.LP64) := by
  refine ⟨by decide, by decide, by decide, by decide, ⟨_, rfl, rfl⟩, by decide, by decide⟩

/-! ## Fallback names -/

/-- The character of a decimal digit has the code 48 plus the digit. -/
theorem digitChar_toNat (d : Nat) (h : d < 10) : (Nat.digitChar d).toNat - 48 = d := by
  interval_cases d <;> rfl

/-- The digits that `Nat.toDigitsCore` puts in front of `ds` denote `n`. -/
theorem toDigitsCore_decimalValue (fuel : Nat) :
    ∀ (n : Nat) (ds : List Char), n < fuel →
      ∃ L : List Char, Nat.toDigitsCore 10 fuel n ds = L ++ ds ∧
        ∀ acc : Nat, decimalValue acc L = acc * 10 ^ L.length + n := by
  induction fuel with
  | zero => intro n ds h; omega
  | succ fuel ih =>
    intro n ds h
    have hd := digitChar_toNat (n % 10) (Nat.mod_lt n (by decide))
    by_cases h0 : n / 10 = 0
    · refine ⟨[Nat.digitChar (n % 10)], ?_, ?_⟩
      · simp only [Nat.toDigitsCore, h0, if_true, List.singleton_append]
      · intro acc
        simp only [decimalValue, List.foldl_cons, List.foldl_nil, hd, List.length_singleton,
          pow_one]
        omega
    · have hlt : n / 10 < fuel := by omega
      obtain ⟨L, hL, hv⟩ := ih (n / 10) (Nat.digitChar (n % 10) :: ds) hlt
      refine ⟨L ++ [Nat.digitChar (n % 10)], ?_, ?_⟩
      · simp only [Nat.toDigitsCore, h0, if_false, hL, List.append_assoc,
          List.singleton_append]
      · intro acc
        have hv1 := hv acc
        unfold decimalValue at hv1 ⊢
        rw [List.foldl_append, hv1]
        simp only [List.foldl_cons, List.foldl_nil, hd, List.length_append,
          List.length_singleton, pow_succ]
        have hdm := Nat.div_add_mod n 10
        nlinarith [hdm]

/-- The decimal representation determines the number. -/
theorem Nat_repr_injective (a b : Nat) (h : Nat.repr a = Nat.repr b) : a = b := by
  have hdata : Nat.toDigits 10 a = Nat.toDigits 10 b := congrArg String.data h
  obtain ⟨La, hLa, hva⟩ := toDigitsCore_decimalValue (a + 1) a [] (Nat.lt_succ_self a)
  obtain ⟨Lb, hLb, hvb⟩ := toDigitsCore_decimalValue (b + 1) b [] (Nat.lt_succ_self b)
  have hLL : La = Lb := by
    have h1 : La ++ [] = Lb ++ [] := by
      rw [← hLa, ← hLb]
      exact hdata
    simpa using h1
  have ha := hva 0
  have hb := hvb 0
  rw [hLL] at ha
  rw [ha] at hb
  omega

/-- A name found in the table after the registrations is one of the registered names, or
was in the table before. -/
theorem foldl_register_eq_some (cbidValue : String → Nat) (k : Nat) (v : String)
    (l : List String) (m0 : CbidMap)
    (h : (l.foldl (REGISTER_RUNTIME_CBID_STR cbidValue) m0) k = some v) :
    v ∈ l ∨ m0 k = some v := by
  induction l generalizing m0 with
  | nil => exact Or.inr h
  | cons x xs ih =>
    rw [List.foldl_cons] at h
    rcases ih _ h with hmem | hx
    · exact Or.inl (List.mem_cons_of_mem x hmem)
    · simp only [REGISTER_RUNTIME_CBID_STR, CbidMap.assign] at hx
      split at hx
      · simp only [Option.some.injEq] at hx
        exact Or.inl (hx ▸ List.mem_cons_self x xs)
      · exact Or.inr hx

/-- No registered name is a fallback string: the registered names start with the letter c,
the fallback strings with the letter M. -/
theorem registered_ne_fallback (n : String) (hn : n ∈ registeredCbids) (cbid : Nat) :
    n ≠ "MLU Runtime API " ++ Nat.repr cbid := by
  intro hfb
  have hc : ∀ a ∈ registeredCbids, a.data.head? = some (Char.ofNat 99) := by decide
  have h1 := hc n hn
  rw [hfb] at h1
  simp [String.data_append] at h1

/-- The name `RuntimeKind` returns is a registered name or the fallback string of the id. -/
theorem RuntimeKind_cases (cbidValue : String → Nat) (cbid : Nat) :
    RuntimeKind (CnpapiRuntimeCbidStr cbidValue) cbid ∈ registeredCbids ∨
    RuntimeKind (CnpapiRuntimeCbidStr cbidValue) cbid =
      "MLU Runtime API " ++ Nat.repr cbid := by
  unfold RuntimeKind
  cases hk : CnpapiRuntimeCbidStr cbidValue cbid with
  | none => exact Or.inr rfl
  | some v =>
    rcases foldl_register_eq_some cbidValue cbid v registeredCbids CbidMap.empty hk with h | h
    · exact Or.inl h
    · simp [CbidMap.empty] at h

/-- C19: fallback callback names are unambiguous.  For an unregistered id `cbid1`: every
other unregistered id gets a different name; the name of `cbid1` is the display name of no
registered identifier; and any id, registered or not, that gets the same name as `cbid1`
is `cbid1` itself. -/
theorem fallback_names_unambiguous (cbidValue : String → Nat) (cbid1 : Nat)
    (hun1 : ∀ n ∈ registeredCbids, cbidValue n ≠ cbid1) :
    (∀ cbid2 : Nat, (∀ n ∈ registeredCbids, cbidValue n ≠ cbid2) → cbid1 ≠ cbid2 →
      RuntimeKind (CnpapiRuntimeCbidStr cbidValue) cbid1 ≠
        RuntimeKind (CnpapiRuntimeCbidStr cbidValue) cbid2) ∧
    (∀ n ∈ registeredCbids, RuntimeKind (CnpapiRuntimeCbidStr cbidValue) cbid1 ≠ n) ∧
    (∀ cbid2 : Nat,
      RuntimeKind (CnpapiRuntimeCbidStr cbidValue) cbid1 =
        RuntimeKind (CnpapiRuntimeCbidStr cbidValue) cbid2 → cbid1 = cbid2) := by
  have hk1 : RuntimeKind (CnpapiRuntimeCbidStr cbidValue) cbid1 =
      "MLU Runtime API " ++ Nat.repr cbid1 := by
    unfold RuntimeKind CnpapiRuntimeCbidStr
    rw [foldl_register_of_forall_ne cbidValue cbid1 registeredCbids CbidMap.empty hun1]
    rfl
  have hdet : ∀ cbid2 : Nat,
      RuntimeKind (CnpapiRuntimeCbidStr cbidValue) cbid1 =
        RuntimeKind (CnpapiRuntimeCbidStr cbidValue) cbid2 → cbid1 = cbid2 := by
    intro cbid2 heq
    rcases RuntimeKind_cases cbidValue cbid2 with hreg | hfb
    · exact absurd (hk1 ▸ heq).symm (registered_ne_fallback _ hreg cbid1)
    · rw [hk1, hfb] at heq
      have hdata := congrArg String.data heq
      simp only [String.data_append] at hdata
      exact Nat_repr_injective cbid1 cbid2 (String.ext (List.append_cancel_left hdata))
  refine ⟨fun cbid2 _ hne heq => hne (hdet cbid2 heq), ?_, hdet⟩
  intro n hn heq
  rw [hk1] at heq
  exact registered_ne_fallback n hn cbid1 heq.symm

/-- Under the sample numbering the ids 99999 and 9999 are unregistered and get different
names, and the name of 99999 is not "cnMalloc". -/
theorem fallback_names_unambiguous_witness :
    RuntimeKind (CnpapiRuntimeCbidStr sampleCbidValue) 99999 ≠
      RuntimeKind (CnpapiRuntimeCbidStr sampleCbidValue) 9999 ∧
    RuntimeKind (CnpapiRuntimeCbidStr sampleCbidValue) 99999 ≠ "cnMalloc" :=
  have h := fallback_names_unambiguous sampleCbidValue 99999
    (fun n _ hk => absurd (hk ▸ List.indexOf_le_length : 99999 ≤ registeredCbids.length)
      (by decide))
  ⟨h.1 9999
    (fun n _ hk => absurd (hk ▸ List.indexOf_le_length : 9999 ≤ registeredCbids.length)
      (by decide)) (by decide),
   h.2.1 "cnMalloc" (by decide)⟩

/-! ## Clock alignment of the submitted events -/

/-- C11, as the code has it: every event the translation adds has `start_ns` and `end_ns`
equal to the raw start and end of the record plus the clock offset (modulo 2^64); the
`queued`, `submitted` and `completed` timestamps of a Kernel event are the raw `queued`,
`submitted` and `received` of the record, with no offset added. -/
theorem submitted_event_clock_alignment (cbidValue : String → Nat) (kMemKindMaxLen : Nat)
    (record : cnpapiActivity) (start_ns : Nat) (tid_mapping : TidMapping) (time_gap : Nat)
    (collector : C_Profiler) (s e : Nat) (ev : TraceEvent)
    (hs : rawStart record = some s) (he : rawEnd record = some e)
    (hev : ProcessCnpapiActivityRecord cbidValue kMemKindMaxLen record start_ns tid_mapping
      time_gap collector = collector ++ [ev]) :
    ev.start_ns = (s + time_gap) % UINT64_MOD ∧
    ev.end_ns = (e + time_gap) % UINT64_MOD ∧
    (record.type = cnpapiActivityType.CNPAPI_ACTIVITY_TYPE_KERNEL →
      ∃ d : DeviceTraceEvent, ∃ i : KernelEventInfo,
        ev = TraceEvent.device d ∧ d.info = DeviceEventInfo.kernel_info i ∧
        i.queued = record.asKernel.queued ∧
        i.submitted = record.asKernel.submitted ∧
        i.completed = record.asKernel.received) := by
  obtain ⟨ev0, hs0, he0, hrun⟩ := process_known_type cbidValue kMemKindMaxLen record start_ns
    tid_mapping time_gap collector s e hs he
  have hev1 := hev
  rw [hrun] at hev1
  split at hev1
  · exact absurd hev1 (collector_ne_append_singleton collector ev)
  · rename_i hfresh
    have h1 := List.append_cancel_left hev1
    simp only [List.cons.injEq, and_true] at h1
    subst h1
    refine ⟨hs0, he0, ?_⟩
    intro hty
    have hsk : s = record.asKernel.start := by
      simp only [rawStart, hty, Option.some.injEq] at hs
      exact hs.symm
    have hrunk : ProcessCnpapiActivityRecord cbidValue kMemKindMaxLen record start_ns
        tid_mapping time_gap collector =
        AddKernelRecord record.asKernel start_ns time_gap collector := by
      simp only [ProcessCnpapiActivityRecord, hty]
    rw [hrunk, AddKernelRecord_fresh record.asKernel start_ns time_gap collector
      (hsk ▸ Nat.not_lt.mp hfresh)] at hev
    have h2 := List.append_cancel_left hev
    simp only [List.cons.injEq, and_true] at h2
    exact ⟨_, _, h2.symm, rfl, rfl, rfl, rfl⟩

/-- The Kernel record "vector_add" with offset 50: start and end become 1050 and 2050, the
queue timestamps stay 990, 995 and 2010. -/
theorem submitted_event_clock_alignment_witness :
    kernelEvent.start_ns = (1000 + 50) % UINT64_MOD ∧
    kernelEvent.end_ns = (2000 + 50) % UINT64_MOD ∧
    (kernelRecord.type = cnpapiActivityType.CNPAPI_ACTIVITY_TYPE_KERNEL →
      ∃ d : DeviceTraceEvent, ∃ i : KernelEventInfo,
        kernelEvent = TraceEvent.device d ∧ d.info = DeviceEventInfo.kernel_info i ∧
        i.queued = kernelRecord.asKernel.queued ∧
        i.submitted = kernelRecord.asKernel.submitted ∧
        i.completed = kernelRecord.asKernel.received) :=
  submitted_event_clock_alignment sampleCbidValue 50 kernelRecord 900 [] 50 [] 1000 2000
    kernelEvent rfl rfl (by decide)

end Cnpapi
